import Mathlib

/-!
Verification development for the onion differential-testing harness,
modelling `request_executor.go` of filecoin-saturn/onion.

Modelling conventions: Go byte slices are Lean `String`s (the code only
uses equality via bytes.Equal, length via len, and concatenation);
a nil slice is `none` where nil-ness is observable (the stored
`ResponseBody` field) and collapses to `""` where the code treats nil
and empty alike (`bytes.Equal`, `len`).  Go maps keyed by path become
association lists (insertion at the head; each path is evaluated once),
Go slice `append` becomes `List` append.  The environment-dependent part
of one HTTP call (transport outcome, status, headers, body read) is an
explicit `HTTPOutcome` input, and the CAR-extraction routine `ExtractRaw`
is an explicit `extract` parameter, matching its use as an opaque,
possibly-failing pure function.
-/

namespace Onion

/-- Mirror of the Go struct `Result` (request_executor.go): one layer's
captured HTTP outcome.  Go zero values are the field defaults. -/
structure Result where
  url : String := ""
  statusCode : Nat := 0
  headers : List (String × List String) := []
  errorBody : String := ""
  responseBodyReadError : String := ""
  responseBody : Option String := none
  responseSize : Nat := 0
deriving Repr, DecidableEq

/-- Mirror of the Go struct `Results`: five per-layer result pointers for one
path; a nil pointer is `none`. -/
structure Results where
  kuboGWResult : Option Result := none
  lassieResult : Option Result := none
  l1ShimResult : Option Result := none
  l1NginxResult : Option Result := none
  bifrostResult : Option Result := none
deriving Repr, DecidableEq

/-- A fully populated `Results` value for one path: what `executeRequest`
reads back after the join of its five layer goroutines (the Go code then
dereferences all five pointers). -/
structure ResultSet where
  kuboGWResult : Result
  lassieResult : Result
  l1ShimResult : Result
  l1NginxResult : Result
  bifrostResult : Result
deriving Repr, DecidableEq

/-- Mirror of the Go struct `ResponseBytesMismatch`: the accumulated
content-axis discrepancy maps, read-error buckets and match counters. -/
structure ResponseBytesMismatch where
  kuboLassieMismatches : List (String × Results) := []
  kuboLassieMismatchPaths : List String := []
  kuboL1ShimMismatches : List (String × Results) := []
  kuboL1ShimMismatchPaths : List String := []
  kuboL1NginxMismatches : List (String × Results) := []
  kuboL1NginxMismatchPaths : List String := []
  kuboBifrostMismatches : List (String × Results) := []
  kuboBifrostMismatchPaths : List String := []
  lassieShimMismatches : List (String × Results) := []
  lassieShimMismatchPaths : List String := []
  shimNginxMismatches : List (String × Results) := []
  shimNginxMismatchPaths : List String := []
  totalLassieReadSuccess : Nat := 0
  totalL1ShimReadSuccess : Nat := 0
  totalL1NginxReadSuccess : Nat := 0
  totalBifrostReadSuccess : Nat := 0
  totalLassieReadError : Nat := 0
  totalL1ShimReadError : Nat := 0
  totalL1NginxReadError : Nat := 0
  totalBifrostReadError : Nat := 0
  lassieReadErrors : List (String × Result) := []
  l1ShimReadErrors : List (String × Result) := []
  l1NginxReadErrors : List (String × Result) := []
  bifrostReadErrors : List (String × Result) := []
  lassieReadErrorPaths : List String := []
  l1ShimReadErrorPaths : List String := []
  l1NginxReadErrorPaths : List String := []
  bifrostReadErrorPaths : List String := []
  totalKuboLassieMatches : Nat := 0
  totalKuboL1ShimMatches : Nat := 0
  totalKuboL1NginxMatches : Nat := 0
  totalKuboBifrostMatches : Nat := 0
deriving Repr, DecidableEq

/-- Mirror of the Go struct `URLsToTest`: one target URL per layer for one
logical request path. -/
structure URLsToTest where
  path : String
  lassie : String
  l1Shim : String
  l1Nginx : String
  kuboGWUrl : String
  bifrostURL : String
deriving Repr, DecidableEq

deriving instance DecidableEq for Except

/-- Abstract outcome of one `client.Get` together with the body read: the
only environment-dependent input of `executeHTTPRequest`.  Either the
transport fails before any response, or a response arrives with a status,
headers, and a body read that yields bytes or fails midway. -/
inductive HTTPOutcome where
  | transportError (msg : String)
  | response (status : Nat) (headers : List (String × List String))
      (bodyRead : Except String String)
deriving Repr, DecidableEq

/-- The five per-layer call outcomes for one path. -/
structure PathOutcomes where
  kubo : HTTPOutcome
  lassie : HTTPOutcome
  l1shim : HTTPOutcome
  l1nginx : HTTPOutcome
  bifrost : HTTPOutcome
deriving Repr, DecidableEq

/-- Go `bytes.Equal` and `len` treat a nil slice as empty; this collapses
the stored optional body to the byte string the comparisons see. -/
def optBytes : Option String → String
  | none => ""
  | some s => s

/-- Mirror of `RequestExecutor.executeHTTPRequest` (request_executor.go):
build exactly one `Result` from a call outcome.  A transport failure keeps
status 0 and records an error string; a 200 response reads the full body
(recording a read error on failure); a non-200 response captures the error
body as text (or the read-error text if even that read fails). -/
def executeHTTPRequest (url : String) (o : HTTPOutcome) : Result :=
  match o with
  | .transportError msg =>
      { url := url, errorBody := "error sending request: " ++ msg }
  | .response status hdrs bodyRead =>
      let r0 : Result := { url := url, headers := hdrs, statusCode := status }
      if status = 200 then
        match bodyRead with
        | .error msg =>
            { r0 with responseBodyReadError := "error reading response body: " ++ msg }
        | .ok body =>
            { r0 with responseBody := some body, responseSize := body.length }
      else
        match bodyRead with
        | .error msg =>
            { r0 with errorBody := "error reading response body: " ++ msg }
        | .ok body => { r0 with errorBody := body }

/-- One layer goroutine's stored result (executeRequest, per-layer
goroutines): the call result with its `ResponseBody` nulled out before it
is handed to `addResultF`. -/
def storedResult (url : String) (o : HTTPOutcome) : Result :=
  { executeHTTPRequest url o with responseBody := none }

/-- One layer goroutine's path-local copy of the response bytes
(`lassieRbs`, `l1ShimRbs`, ..., taken before the body is nulled). -/
def localBytes (url : String) (o : HTTPOutcome) : String :=
  optBytes (executeHTTPRequest url o).responseBody

/-- Mirror of the Lassie read-tracking block of `executeRequest` (gated on
status 200): count a read success, or bucket the read error. -/
def lassieReadStep (path : String) (rs : ResultSet)
    (rbm : ResponseBytesMismatch) : ResponseBytesMismatch :=
  if rs.lassieResult.statusCode = 200 then
    if rs.lassieResult.responseBodyReadError = "" then
      { rbm with totalLassieReadSuccess := rbm.totalLassieReadSuccess + 1 }
    else
      { rbm with
        lassieReadErrors := (path, rs.lassieResult) :: rbm.lassieReadErrors
        lassieReadErrorPaths := rbm.lassieReadErrorPaths ++ [path]
        totalLassieReadError := rbm.totalLassieReadError + 1 }
  else rbm

/-- Mirror of the L1-Shim read-tracking block of `executeRequest`. -/
def l1ShimReadStep (path : String) (rs : ResultSet)
    (rbm : ResponseBytesMismatch) : ResponseBytesMismatch :=
  if rs.l1ShimResult.statusCode = 200 then
    if rs.l1ShimResult.responseBodyReadError = "" then
      { rbm with totalL1ShimReadSuccess := rbm.totalL1ShimReadSuccess + 1 }
    else
      { rbm with
        l1ShimReadErrors := (path, rs.l1ShimResult) :: rbm.l1ShimReadErrors
        l1ShimReadErrorPaths := rbm.l1ShimReadErrorPaths ++ [path]
        totalL1ShimReadError := rbm.totalL1ShimReadError + 1 }
  else rbm

/-- Mirror of the L1-Nginx read-tracking block of `executeRequest`. -/
def l1NginxReadStep (path : String) (rs : ResultSet)
    (rbm : ResponseBytesMismatch) : ResponseBytesMismatch :=
  if rs.l1NginxResult.statusCode = 200 then
    if rs.l1NginxResult.responseBodyReadError = "" then
      { rbm with totalL1NginxReadSuccess := rbm.totalL1NginxReadSuccess + 1 }
    else
      { rbm with
        l1NginxReadErrors := (path, rs.l1NginxResult) :: rbm.l1NginxReadErrors
        l1NginxReadErrorPaths := rbm.l1NginxReadErrorPaths ++ [path]
        totalL1NginxReadError := rbm.totalL1NginxReadError + 1 }
  else rbm

/-- Mirror of the Bifrost read-tracking block of `executeRequest`. -/
def bifrostReadStep (path : String) (rs : ResultSet)
    (rbm : ResponseBytesMismatch) : ResponseBytesMismatch :=
  if rs.bifrostResult.statusCode = 200 then
    if rs.bifrostResult.responseBodyReadError = "" then
      { rbm with totalBifrostReadSuccess := rbm.totalBifrostReadSuccess + 1 }
    else
      { rbm with
        bifrostReadErrors := (path, rs.bifrostResult) :: rbm.bifrostReadErrors
        bifrostReadErrorPaths := rbm.bifrostReadErrorPaths ++ [path]
        totalBifrostReadError := rbm.totalBifrostReadError + 1 }
  else rbm

/-- Mirror of the Kubo/Lassie content block of `executeRequest`: when both
sides are 200 with error-free reads, extract the raw bytes from the Lassie
CAR; on extraction success compare against the Kubo bytes, recording a
mismatch or bumping the match counter; on extraction failure do nothing. -/
def kuboLassiePair (path : String) (extract : String → Except String String)
    (rs : ResultSet) (kuboGWRbs lassieRbs : String)
    (rbm : ResponseBytesMismatch) : ResponseBytesMismatch :=
  if rs.kuboGWResult.statusCode = 200 ∧ rs.lassieResult.statusCode = 200 ∧
      rs.kuboGWResult.responseBodyReadError = "" ∧
      rs.lassieResult.responseBodyReadError = "" then
    match extract lassieRbs with
    | .error _ => rbm
    | .ok raw =>
      if kuboGWRbs ≠ raw then
        { rbm with
          kuboLassieMismatches :=
            (path, { kuboGWResult := some rs.kuboGWResult,
                     lassieResult := some rs.lassieResult : Results })
              :: rbm.kuboLassieMismatches
          kuboLassieMismatchPaths := rbm.kuboLassieMismatchPaths ++ [path] }
      else
        { rbm with totalKuboLassieMatches := rbm.totalKuboLassieMatches + 1 }
  else rbm

/-- Mirror of the Kubo/L1-Shim content block of `executeRequest`: like the
Kubo/Lassie block, but the comparison additionally requires the extracted
bytes to be non-empty (`err == nil && len(raw) > 0`). -/
def kuboL1ShimPair (path : String) (extract : String → Except String String)
    (rs : ResultSet) (kuboGWRbs l1ShimRbs : String)
    (rbm : ResponseBytesMismatch) : ResponseBytesMismatch :=
  if rs.kuboGWResult.statusCode = 200 ∧ rs.l1ShimResult.statusCode = 200 ∧
      rs.kuboGWResult.responseBodyReadError = "" ∧
      rs.l1ShimResult.responseBodyReadError = "" then
    match extract l1ShimRbs with
    | .error _ => rbm
    | .ok raw =>
      if raw.length > 0 then
        if kuboGWRbs ≠ raw then
          { rbm with
            kuboL1ShimMismatches :=
              (path, { kuboGWResult := some rs.kuboGWResult,
                       l1ShimResult := some rs.l1ShimResult : Results })
                :: rbm.kuboL1ShimMismatches
            kuboL1ShimMismatchPaths := rbm.kuboL1ShimMismatchPaths ++ [path] }
        else
          { rbm with totalKuboL1ShimMatches := rbm.totalKuboL1ShimMatches + 1 }
      else rbm
  else rbm

/-- Mirror of the Kubo/L1-Nginx content block of `executeRequest`. -/
def kuboL1NginxPair (path : String) (extract : String → Except String String)
    (rs : ResultSet) (kuboGWRbs l1NginxRbs : String)
    (rbm : ResponseBytesMismatch) : ResponseBytesMismatch :=
  if rs.kuboGWResult.statusCode = 200 ∧ rs.l1NginxResult.statusCode = 200 ∧
      rs.kuboGWResult.responseBodyReadError = "" ∧
      rs.l1NginxResult.responseBodyReadError = "" then
    match extract l1NginxRbs with
    | .error _ => rbm
    | .ok raw =>
      if kuboGWRbs ≠ raw then
        { rbm with
          kuboL1NginxMismatches :=
            (path, { kuboGWResult := some rs.kuboGWResult,
                     l1NginxResult := some rs.l1NginxResult : Results })
              :: rbm.kuboL1NginxMismatches
          kuboL1NginxMismatchPaths := rbm.kuboL1NginxMismatchPaths ++ [path] }
      else
        { rbm with totalKuboL1NginxMatches := rbm.totalKuboL1NginxMatches + 1 }
  else rbm

/-- Mirror of the Kubo/Bifrost content block of `executeRequest`: a direct
byte comparison (no extraction), with a match counter. -/
def kuboBifrostPair (path : String) (rs : ResultSet)
    (kuboGWRbs bifrostRbs : String)
    (rbm : ResponseBytesMismatch) : ResponseBytesMismatch :=
  if rs.kuboGWResult.statusCode = 200 ∧ rs.bifrostResult.statusCode = 200 ∧
      rs.kuboGWResult.responseBodyReadError = "" ∧
      rs.bifrostResult.responseBodyReadError = "" then
    if kuboGWRbs ≠ bifrostRbs then
      { rbm with
        kuboBifrostMismatches :=
          (path, { kuboGWResult := some rs.kuboGWResult,
                   bifrostResult := some rs.bifrostResult : Results })
            :: rbm.kuboBifrostMismatches
        kuboBifrostMismatchPaths := rbm.kuboBifrostMismatchPaths ++ [path] }
    else
      { rbm with totalKuboBifrostMatches := rbm.totalKuboBifrostMatches + 1 }
  else rbm

/-- Mirror of the Lassie/L1-Shim content block of `executeRequest`: a direct
byte comparison of the two CAR bodies; a mismatch is recorded but there is
no match counter for this pair. -/
def lassieShimPair (path : String) (rs : ResultSet)
    (lassieRbs l1ShimRbs : String)
    (rbm : ResponseBytesMismatch) : ResponseBytesMismatch :=
  if rs.lassieResult.statusCode = 200 ∧ rs.l1ShimResult.statusCode = 200 ∧
      rs.lassieResult.responseBodyReadError = "" ∧
      rs.l1ShimResult.responseBodyReadError = "" then
    if lassieRbs ≠ l1ShimRbs then
      { rbm with
        lassieShimMismatches :=
          (path, { lassieResult := some rs.lassieResult,
                   l1ShimResult := some rs.l1ShimResult : Results })
            :: rbm.lassieShimMismatches
        lassieShimMismatchPaths := rbm.lassieShimMismatchPaths ++ [path] }
    else rbm
  else rbm

/-- Mirror of the L1-Shim/L1-Nginx content block of `executeRequest`: a
direct byte comparison; a mismatch is recorded but there is no match
counter for this pair. -/
def shimNginxPair (path : String) (rs : ResultSet)
    (l1ShimRbs l1NginxRbs : String)
    (rbm : ResponseBytesMismatch) : ResponseBytesMismatch :=
  if rs.l1ShimResult.statusCode = 200 ∧ rs.l1NginxResult.statusCode = 200 ∧
      rs.l1ShimResult.responseBodyReadError = "" ∧
      rs.l1NginxResult.responseBodyReadError = "" then
    if l1ShimRbs ≠ l1NginxRbs then
      { rbm with
        shimNginxMismatches :=
          (path, { l1ShimResult := some rs.l1ShimResult,
                   l1NginxResult := some rs.l1NginxResult : Results })
            :: rbm.shimNginxMismatches
        shimNginxMismatchPaths := rbm.shimNginxMismatchPaths ++ [path] }
    else rbm
  else rbm

/-- Mirror of the post-join tail of `executeRequest` (under `re.mu`): the
four read-tracking blocks followed by the six content-pair blocks, in
source order. -/
def evalConsistency (path : String) (extract : String → Except String String)
    (rs : ResultSet) (kuboGWRbs lassieRbs l1ShimRbs l1NginxRbs bifrostRbs : String)
    (rbm : ResponseBytesMismatch) : ResponseBytesMismatch :=
  let r1 := lassieReadStep path rs rbm
  let r2 := l1ShimReadStep path rs r1
  let r3 := l1NginxReadStep path rs r2
  let r4 := bifrostReadStep path rs r3
  let r5 := kuboLassiePair path extract rs kuboGWRbs lassieRbs r4
  let r6 := kuboL1ShimPair path extract rs kuboGWRbs l1ShimRbs r5
  let r7 := kuboL1NginxPair path extract rs kuboGWRbs l1NginxRbs r6
  let r8 := kuboBifrostPair path rs kuboGWRbs bifrostRbs r7
  let r9 := lassieShimPair path rs lassieRbs l1ShimRbs r8
  shimNginxPair path rs l1ShimRbs l1NginxRbs r9

/-- The result set assembled by the five layer goroutines of
`executeRequest`: each slot holds that layer's stored (body-stripped)
result, determined only by that layer's own URL and call outcome. -/
def gatherResultSet (urls : URLsToTest) (o : PathOutcomes) : ResultSet :=
  { kuboGWResult := storedResult urls.kuboGWUrl o.kubo
    lassieResult := storedResult urls.lassie o.lassie
    l1ShimResult := storedResult urls.l1Shim o.l1shim
    l1NginxResult := storedResult urls.l1Nginx o.l1nginx
    bifrostResult := storedResult urls.bifrostURL o.bifrost }

/-- Model of one whole `executeRequest` call: fan out the five layer calls,
join, then evaluate consistency; returns the stored `Results` entry for the
path and the updated `ResponseBytesMismatch` state. -/
def executeRequestModel (urls : URLsToTest) (o : PathOutcomes)
    (extract : String → Except String String)
    (rbm : ResponseBytesMismatch) : Results × ResponseBytesMismatch :=
  let rs := gatherResultSet urls o
  ({ kuboGWResult := some rs.kuboGWResult
     lassieResult := some rs.lassieResult
     l1ShimResult := some rs.l1ShimResult
     l1NginxResult := some rs.l1NginxResult
     bifrostResult := some rs.bifrostResult },
   evalConsistency urls.path extract rs
     (localBytes urls.kuboGWUrl o.kubo)
     (localBytes urls.lassie o.lassie)
     (localBytes urls.l1Shim o.l1shim)
     (localBytes urls.l1Nginx o.l1nginx)
     (localBytes urls.bifrostURL o.bifrost)
     rbm)

/-- Mirror of the accumulators of `WriteMismatchesToFile`: per-pair
status-mismatch maps and path lists, plus the per-layer counts of 200
responses with successful body reads (the `Result2xx` struct). -/
structure StatusAcc where
  kuboLassieMismatch : List (String × Results) := []
  kuboBifrostMismatch : List (String × Results) := []
  lassieShimMismatch : List (String × Results) := []
  shimNginxMismatch : List (String × Results) := []
  nginxBifrostMismatch : List (String × Results) := []
  klMismatchPaths : List String := []
  kuboBifrostMismatchPaths : List String := []
  lsMismatchPaths : List String := []
  snMismatchPaths : List String := []
  nbMismatchPaths : List String := []
  kubo2xx : Nat := 0
  lassie2xx : Nat := 0
  shim2xx : Nat := 0
  nginx2xx : Nat := 0
  bifrost2xx : Nat := 0
deriving Repr, DecidableEq

/-- Mirror of the first block of the `for path, results := range res` loop
of `WriteMismatchesToFile`: when Kubo GW is a 200 with an error-free read,
count it and record a status mismatch against Lassie and against Bifrost
for each of those that is not a 200 with an error-free read. -/
def kuboStatusBlock (path : String) (results : ResultSet)
    (acc : StatusAcc) : StatusAcc :=
  if results.kuboGWResult.statusCode = 200 ∧
      results.kuboGWResult.responseBodyReadError = "" then
    let b0 := { acc with kubo2xx := acc.kubo2xx + 1 }
    let b1 :=
      if results.lassieResult.statusCode ≠ 200 ∨
          results.lassieResult.responseBodyReadError ≠ "" then
        { b0 with
          kuboLassieMismatch :=
            (path, { kuboGWResult := some results.kuboGWResult,
                     lassieResult := some results.lassieResult : Results })
              :: b0.kuboLassieMismatch
          klMismatchPaths := b0.klMismatchPaths ++ [path] }
      else b0
    if results.bifrostResult.statusCode ≠ 200 ∨
        results.bifrostResult.responseBodyReadError ≠ "" then
      { b1 with
        kuboBifrostMismatch :=
          (path, { kuboGWResult := some results.kuboGWResult,
                   bifrostResult := some results.bifrostResult : Results })
            :: b1.kuboBifrostMismatch
        kuboBifrostMismatchPaths := b1.kuboBifrostMismatchPaths ++ [path] }
    else b1
  else acc

/-- Mirror of the second block of the loop of `WriteMismatchesToFile`:
Lassie counted when successful, status mismatch recorded against L1 Shim. -/
def lassieStatusBlock (path : String) (results : ResultSet)
    (acc : StatusAcc) : StatusAcc :=
  if results.lassieResult.statusCode = 200 ∧
      results.lassieResult.responseBodyReadError = "" then
    let b0 := { acc with lassie2xx := acc.lassie2xx + 1 }
    if results.l1ShimResult.statusCode ≠ 200 ∨
        results.l1ShimResult.responseBodyReadError ≠ "" then
      { b0 with
        lassieShimMismatch :=
          (path, { lassieResult := some results.lassieResult,
                   l1ShimResult := some results.l1ShimResult : Results })
            :: b0.lassieShimMismatch
        lsMismatchPaths := b0.lsMismatchPaths ++ [path] }
    else b0
  else acc

/-- Mirror of the third block of the loop of `WriteMismatchesToFile`:
L1 Shim counted when successful, status mismatch recorded against L1 Nginx. -/
def shimStatusBlock (path : String) (results : ResultSet)
    (acc : StatusAcc) : StatusAcc :=
  if results.l1ShimResult.statusCode = 200 ∧
      results.l1ShimResult.responseBodyReadError = "" then
    let b0 := { acc with shim2xx := acc.shim2xx + 1 }
    if results.l1NginxResult.statusCode ≠ 200 ∨
        results.l1NginxResult.responseBodyReadError ≠ "" then
      { b0 with
        shimNginxMismatch :=
          (path, { l1ShimResult := some results.l1ShimResult,
                   l1NginxResult := some results.l1NginxResult : Results })
            :: b0.shimNginxMismatch
        snMismatchPaths := b0.snMismatchPaths ++ [path] }
    else b0
  else acc

/-- Mirror of the fourth block of the loop of `WriteMismatchesToFile`:
L1 Nginx counted when successful, status mismatch recorded against Bifrost. -/
def nginxStatusBlock (path : String) (results : ResultSet)
    (acc : StatusAcc) : StatusAcc :=
  if results.l1NginxResult.statusCode = 200 ∧
      results.l1NginxResult.responseBodyReadError = "" then
    let b0 := { acc with nginx2xx := acc.nginx2xx + 1 }
    if results.bifrostResult.statusCode ≠ 200 ∨
        results.bifrostResult.responseBodyReadError ≠ "" then
      { b0 with
        nginxBifrostMismatch :=
          (path, { l1NginxResult := some results.l1NginxResult,
                   bifrostResult := some results.bifrostResult : Results })
            :: b0.nginxBifrostMismatch
        nbMismatchPaths := b0.nbMismatchPaths ++ [path] }
    else b0
  else acc

/-- Mirror of the fifth block of the loop of `WriteMismatchesToFile`:
Bifrost counted when successful (no mismatch recorded here). -/
def bifrostStatusBlock (results : ResultSet) (acc : StatusAcc) : StatusAcc :=
  if results.bifrostResult.statusCode = 200 ∧
      results.bifrostResult.responseBodyReadError = "" then
    { acc with bifrost2xx := acc.bifrost2xx + 1 }
  else acc

/-- Mirror of the whole body of the `for path, results := range res` loop of
`WriteMismatchesToFile`: the five blocks in source order. -/
def statusMismatchStep (path : String) (results : ResultSet)
    (acc : StatusAcc) : StatusAcc :=
  bifrostStatusBlock results
    (nginxStatusBlock path results
      (shimStatusBlock path results
        (lassieStatusBlock path results
          (kuboStatusBlock path results acc))))

/-- A status in the 2xx range, as the specification words it.  The Go code
itself always tests equality with `http.StatusOK` (exactly 200). -/
def is2xx (s : Nat) : Prop := 200 ≤ s ∧ s < 300

instance (s : Nat) : Decidable (is2xx s) := by
  unfold is2xx; infer_instance

/-- A layer result the code treats as fully successful: status exactly 200
and an error-free body read. -/
def resultOK (r : Result) : Prop :=
  r.statusCode = 200 ∧ r.responseBodyReadError = ""

instance (r : Result) : Decidable (resultOK r) := by
  unfold resultOK; infer_instance

/-!
Frame lemmas: each consistency-engine step mutates only its own fields
of `ResponseBytesMismatch`; every other observable field passes through
unchanged.  One lemma per (field, non-owning step) pair.
-/

@[simp] theorem pres_kuboLassieMismatches_lassieReadStep (p : String) (rs : ResultSet) (rbm : ResponseBytesMismatch) :
    (lassieReadStep p rs rbm).kuboLassieMismatches = rbm.kuboLassieMismatches := by
  unfold lassieReadStep
  repeat' split
  all_goals rfl

@[simp] theorem pres_kuboLassieMismatches_l1ShimReadStep (p : String) (rs : ResultSet) (rbm : ResponseBytesMismatch) :
    (l1ShimReadStep p rs rbm).kuboLassieMismatches = rbm.kuboLassieMismatches := by
  unfold l1ShimReadStep
  repeat' split
  all_goals rfl

@[simp] theorem pres_kuboLassieMismatches_l1NginxReadStep (p : String) (rs : ResultSet) (rbm : ResponseBytesMismatch) :
    (l1NginxReadStep p rs rbm).kuboLassieMismatches = rbm.kuboLassieMismatches := by
  unfold l1NginxReadStep
  repeat' split
  all_goals rfl

@[simp] theorem pres_kuboLassieMismatches_bifrostReadStep (p : String) (rs : ResultSet) (rbm : ResponseBytesMismatch) :
    (bifrostReadStep p rs rbm).kuboLassieMismatches = rbm.kuboLassieMismatches := by
  unfold bifrostReadStep
  repeat' split
  all_goals rfl

@[simp] theorem pres_kuboLassieMismatches_kuboL1ShimPair (p : String) (ex : String → Except String String) (rs : ResultSet)
    (a b : String) (rbm : ResponseBytesMismatch) :
    (kuboL1ShimPair p ex rs a b rbm).kuboLassieMismatches = rbm.kuboLassieMismatches := by
  unfold kuboL1ShimPair
  repeat' split
  all_goals rfl

@[simp] theorem pres_kuboLassieMismatches_kuboL1NginxPair (p : String) (ex : String → Except String String) (rs : ResultSet)
    (a b : String) (rbm : ResponseBytesMismatch) :
    (kuboL1NginxPair p ex rs a b rbm).kuboLassieMismatches = rbm.kuboLassieMismatches := by
  unfold kuboL1NginxPair
  repeat' split
  all_goals rfl

@[simp] theorem pres_kuboLassieMismatches_kuboBifrostPair (p : String) (rs : ResultSet) (a b : String) (rbm : ResponseBytesMismatch) :
    (kuboBifrostPair p rs a b rbm).kuboLassieMismatches = rbm.kuboLassieMismatches := by
  unfold kuboBifrostPair
  repeat' split
  all_goals rfl

@[simp] theorem pres_kuboLassieMismatches_lassieShimPair (p : String) (rs : ResultSet) (a b : String) (rbm : ResponseBytesMismatch) :
    (lassieShimPair p rs a b rbm).kuboLassieMismatches = rbm.kuboLassieMismatches := by
  unfold lassieShimPair
  repeat' split
  all_goals rfl

@[simp] theorem pres_kuboLassieMismatches_shimNginxPair (p : String) (rs : ResultSet) (a b : String) (rbm : ResponseBytesMismatch) :
    (shimNginxPair p rs a b rbm).kuboLassieMismatches = rbm.kuboLassieMismatches := by
  unfold shimNginxPair
  repeat' split
  all_goals rfl

@[simp] theorem pres_kuboLassieMismatchPaths_lassieReadStep (p : String) (rs : ResultSet) (rbm : ResponseBytesMismatch) :
    (lassieReadStep p rs rbm).kuboLassieMismatchPaths = rbm.kuboLassieMismatchPaths := by
  unfold lassieReadStep
  repeat' split
  all_goals rfl

@[simp] theorem pres_kuboLassieMismatchPaths_l1ShimReadStep (p : String) (rs : ResultSet) (rbm : ResponseBytesMismatch) :
    (l1ShimReadStep p rs rbm).kuboLassieMismatchPaths = rbm.kuboLassieMismatchPaths := by
  unfold l1ShimReadStep
  repeat' split
  all_goals rfl

@[simp] theorem pres_kuboLassieMismatchPaths_l1NginxReadStep (p : String) (rs : ResultSet) (rbm : ResponseBytesMismatch) :
    (l1NginxReadStep p rs rbm).kuboLassieMismatchPaths = rbm.kuboLassieMismatchPaths := by
  unfold l1NginxReadStep
  repeat' split
  all_goals rfl

@[simp] theorem pres_kuboLassieMismatchPaths_bifrostReadStep (p : String) (rs : ResultSet) (rbm : ResponseBytesMismatch) :
    (bifrostReadStep p rs rbm).kuboLassieMismatchPaths = rbm.kuboLassieMismatchPaths := by
  unfold bifrostReadStep
  repeat' split
  all_goals rfl

@[simp] theorem pres_kuboLassieMismatchPaths_kuboL1ShimPair (p : String) (ex : String → Except String String) (rs : ResultSet)
    (a b : String) (rbm : ResponseBytesMismatch) :
    (kuboL1ShimPair p ex rs a b rbm).kuboLassieMismatchPaths = rbm.kuboLassieMismatchPaths := by
  unfold kuboL1ShimPair
  repeat' split
  all_goals rfl

@[simp] theorem pres_kuboLassieMismatchPaths_kuboL1NginxPair (p : String) (ex : String → Except String String) (rs : ResultSet)
    (a b : String) (rbm : ResponseBytesMismatch) :
    (kuboL1NginxPair p ex rs a b rbm).kuboLassieMismatchPaths = rbm.kuboLassieMismatchPaths := by
  unfold kuboL1NginxPair
  repeat' split
  all_goals rfl

@[simp] theorem pres_kuboLassieMismatchPaths_kuboBifrostPair (p : String) (rs : ResultSet) (a b : String) (rbm : ResponseBytesMismatch) :
    (kuboBifrostPair p rs a b rbm).kuboLassieMismatchPaths = rbm.kuboLassieMismatchPaths := by
  unfold kuboBifrostPair
  repeat' split
  all_goals rfl

@[simp] theorem pres_kuboLassieMismatchPaths_lassieShimPair (p : String) (rs : ResultSet) (a b : String) (rbm : ResponseBytesMismatch) :
    (lassieShimPair p rs a b rbm).kuboLassieMismatchPaths = rbm.kuboLassieMismatchPaths := by
  unfold lassieShimPair
  repeat' split
  all_goals rfl

@[simp] theorem pres_kuboLassieMismatchPaths_shimNginxPair (p : String) (rs : ResultSet) (a b : String) (rbm : ResponseBytesMismatch) :
    (shimNginxPair p rs a b rbm).kuboLassieMismatchPaths = rbm.kuboLassieMismatchPaths := by
  unfold shimNginxPair
  repeat' split
  all_goals rfl

@[simp] theorem pres_totalKuboLassieMatches_lassieReadStep (p : String) (rs : ResultSet) (rbm : ResponseBytesMismatch) :
    (lassieReadStep p rs rbm).totalKuboLassieMatches = rbm.totalKuboLassieMatches := by
  unfold lassieReadStep
  repeat' split
  all_goals rfl

@[simp] theorem pres_totalKuboLassieMatches_l1ShimReadStep (p : String) (rs : ResultSet) (rbm : ResponseBytesMismatch) :
    (l1ShimReadStep p rs rbm).totalKuboLassieMatches = rbm.totalKuboLassieMatches := by
  unfold l1ShimReadStep
  repeat' split
  all_goals rfl

@[simp] theorem pres_totalKuboLassieMatches_l1NginxReadStep (p : String) (rs : ResultSet) (rbm : ResponseBytesMismatch) :
    (l1NginxReadStep p rs rbm).totalKuboLassieMatches = rbm.totalKuboLassieMatches := by
  unfold l1NginxReadStep
  repeat' split
  all_goals rfl

@[simp] theorem pres_totalKuboLassieMatches_bifrostReadStep (p : String) (rs : ResultSet) (rbm : ResponseBytesMismatch) :
    (bifrostReadStep p rs rbm).totalKuboLassieMatches = rbm.totalKuboLassieMatches := by
  unfold bifrostReadStep
  repeat' split
  all_goals rfl

@[simp] theorem pres_totalKuboLassieMatches_kuboL1ShimPair (p : String) (ex : String → Except String String) (rs : ResultSet)
    (a b : String) (rbm : ResponseBytesMismatch) :
    (kuboL1ShimPair p ex rs a b rbm).totalKuboLassieMatches = rbm.totalKuboLassieMatches := by
  unfold kuboL1ShimPair
  repeat' split
  all_goals rfl

@[simp] theorem pres_totalKuboLassieMatches_kuboL1NginxPair (p : String) (ex : String → Except String String) (rs : ResultSet)
    (a b : String) (rbm : ResponseBytesMismatch) :
    (kuboL1NginxPair p ex rs a b rbm).totalKuboLassieMatches = rbm.totalKuboLassieMatches := by
  unfold kuboL1NginxPair
  repeat' split
  all_goals rfl

@[simp] theorem pres_totalKuboLassieMatches_kuboBifrostPair (p : String) (rs : ResultSet) (a b : String) (rbm : ResponseBytesMismatch) :
    (kuboBifrostPair p rs a b rbm).totalKuboLassieMatches = rbm.totalKuboLassieMatches := by
  unfold kuboBifrostPair
  repeat' split
  all_goals rfl

@[simp] theorem pres_totalKuboLassieMatches_lassieShimPair (p : String) (rs : ResultSet) (a b : String) (rbm : ResponseBytesMismatch) :
    (lassieShimPair p rs a b rbm).totalKuboLassieMatches = rbm.totalKuboLassieMatches := by
  unfold lassieShimPair
  repeat' split
  all_goals rfl

@[simp] theorem pres_totalKuboLassieMatches_shimNginxPair (p : String) (rs : ResultSet) (a b : String) (rbm : ResponseBytesMismatch) :
    (shimNginxPair p rs a b rbm).totalKuboLassieMatches = rbm.totalKuboLassieMatches := by
  unfold shimNginxPair
  repeat' split
  all_goals rfl

@[simp] theorem pres_kuboL1ShimMismatches_lassieReadStep (p : String) (rs : ResultSet) (rbm : ResponseBytesMismatch) :
    (lassieReadStep p rs rbm).kuboL1ShimMismatches = rbm.kuboL1ShimMismatches := by
  unfold lassieReadStep
  repeat' split
  all_goals rfl

@[simp] theorem pres_kuboL1ShimMismatches_l1ShimReadStep (p : String) (rs : ResultSet) (rbm : ResponseBytesMismatch) :
    (l1ShimReadStep p rs rbm).kuboL1ShimMismatches = rbm.kuboL1ShimMismatches := by
  unfold l1ShimReadStep
  repeat' split
  all_goals rfl

@[simp] theorem pres_kuboL1ShimMismatches_l1NginxReadStep (p : String) (rs : ResultSet) (rbm : ResponseBytesMismatch) :
    (l1NginxReadStep p rs rbm).kuboL1ShimMismatches = rbm.kuboL1ShimMismatches := by
  unfold l1NginxReadStep
  repeat' split
  all_goals rfl

@[simp] theorem pres_kuboL1ShimMismatches_bifrostReadStep (p : String) (rs : ResultSet) (rbm : ResponseBytesMismatch) :
    (bifrostReadStep p rs rbm).kuboL1ShimMismatches = rbm.kuboL1ShimMismatches := by
  unfold bifrostReadStep
  repeat' split
  all_goals rfl

@[simp] theorem pres_kuboL1ShimMismatches_kuboLassiePair (p : String) (ex : String → Except String String) (rs : ResultSet)
    (a b : String) (rbm : ResponseBytesMismatch) :
    (kuboLassiePair p ex rs a b rbm).kuboL1ShimMismatches = rbm.kuboL1ShimMismatches := by
  unfold kuboLassiePair
  repeat' split
  all_goals rfl

@[simp] theorem pres_kuboL1ShimMismatches_kuboL1NginxPair (p : String) (ex : String → Except String String) (rs : ResultSet)
    (a b : String) (rbm : ResponseBytesMismatch) :
    (kuboL1NginxPair p ex rs a b rbm).kuboL1ShimMismatches = rbm.kuboL1ShimMismatches := by
  unfold kuboL1NginxPair
  repeat' split
  all_goals rfl

@[simp] theorem pres_kuboL1ShimMismatches_kuboBifrostPair (p : String) (rs : ResultSet) (a b : String) (rbm : ResponseBytesMismatch) :
    (kuboBifrostPair p rs a b rbm).kuboL1ShimMismatches = rbm.kuboL1ShimMismatches := by
  unfold kuboBifrostPair
  repeat' split
  all_goals rfl

@[simp] theorem pres_kuboL1ShimMismatches_lassieShimPair (p : String) (rs : ResultSet) (a b : String) (rbm : ResponseBytesMismatch) :
    (lassieShimPair p rs a b rbm).kuboL1ShimMismatches = rbm.kuboL1ShimMismatches := by
  unfold lassieShimPair
  repeat' split
  all_goals rfl

@[simp] theorem pres_kuboL1ShimMismatches_shimNginxPair (p : String) (rs : ResultSet) (a b : String) (rbm : ResponseBytesMismatch) :
    (shimNginxPair p rs a b rbm).kuboL1ShimMismatches = rbm.kuboL1ShimMismatches := by
  unfold shimNginxPair
  repeat' split
  all_goals rfl

@[simp] theorem pres_kuboL1ShimMismatchPaths_lassieReadStep (p : String) (rs : ResultSet) (rbm : ResponseBytesMismatch) :
    (lassieReadStep p rs rbm).kuboL1ShimMismatchPaths = rbm.kuboL1ShimMismatchPaths := by
  unfold lassieReadStep
  repeat' split
  all_goals rfl

@[simp] theorem pres_kuboL1ShimMismatchPaths_l1ShimReadStep (p : String) (rs : ResultSet) (rbm : ResponseBytesMismatch) :
    (l1ShimReadStep p rs rbm).kuboL1ShimMismatchPaths = rbm.kuboL1ShimMismatchPaths := by
  unfold l1ShimReadStep
  repeat' split
  all_goals rfl

@[simp] theorem pres_kuboL1ShimMismatchPaths_l1NginxReadStep (p : String) (rs : ResultSet) (rbm : ResponseBytesMismatch) :
    (l1NginxReadStep p rs rbm).kuboL1ShimMismatchPaths = rbm.kuboL1ShimMismatchPaths := by
  unfold l1NginxReadStep
  repeat' split
  all_goals rfl

@[simp] theorem pres_kuboL1ShimMismatchPaths_bifrostReadStep (p : String) (rs : ResultSet) (rbm : ResponseBytesMismatch) :
    (bifrostReadStep p rs rbm).kuboL1ShimMismatchPaths = rbm.kuboL1ShimMismatchPaths := by
  unfold bifrostReadStep
  repeat' split
  all_goals rfl

@[simp] theorem pres_kuboL1ShimMismatchPaths_kuboLassiePair (p : String) (ex : String → Except String String) (rs : ResultSet)
    (a b : String) (rbm : ResponseBytesMismatch) :
    (kuboLassiePair p ex rs a b rbm).kuboL1ShimMismatchPaths = rbm.kuboL1ShimMismatchPaths := by
  unfold kuboLassiePair
  repeat' split
  all_goals rfl

@[simp] theorem pres_kuboL1ShimMismatchPaths_kuboL1NginxPair (p : String) (ex : String → Except String String) (rs : ResultSet)
    (a b : String) (rbm : ResponseBytesMismatch) :
    (kuboL1NginxPair p ex rs a b rbm).kuboL1ShimMismatchPaths = rbm.kuboL1ShimMismatchPaths := by
  unfold kuboL1NginxPair
  repeat' split
  all_goals rfl

@[simp] theorem pres_kuboL1ShimMismatchPaths_kuboBifrostPair (p : String) (rs : ResultSet) (a b : String) (rbm : ResponseBytesMismatch) :
    (kuboBifrostPair p rs a b rbm).kuboL1ShimMismatchPaths = rbm.kuboL1ShimMismatchPaths := by
  unfold kuboBifrostPair
  repeat' split
  all_goals rfl

@[simp] theorem pres_kuboL1ShimMismatchPaths_lassieShimPair (p : String) (rs : ResultSet) (a b : String) (rbm : ResponseBytesMismatch) :
    (lassieShimPair p rs a b rbm).kuboL1ShimMismatchPaths = rbm.kuboL1ShimMismatchPaths := by
  unfold lassieShimPair
  repeat' split
  all_goals rfl

@[simp] theorem pres_kuboL1ShimMismatchPaths_shimNginxPair (p : String) (rs : ResultSet) (a b : String) (rbm : ResponseBytesMismatch) :
    (shimNginxPair p rs a b rbm).kuboL1ShimMismatchPaths = rbm.kuboL1ShimMismatchPaths := by
  unfold shimNginxPair
  repeat' split
  all_goals rfl

@[simp] theorem pres_totalKuboL1ShimMatches_lassieReadStep (p : String) (rs : ResultSet) (rbm : ResponseBytesMismatch) :
    (lassieReadStep p rs rbm).totalKuboL1ShimMatches = rbm.totalKuboL1ShimMatches := by
  unfold lassieReadStep
  repeat' split
  all_goals rfl

@[simp] theorem pres_totalKuboL1ShimMatches_l1ShimReadStep (p : String) (rs : ResultSet) (rbm : ResponseBytesMismatch) :
    (l1ShimReadStep p rs rbm).totalKuboL1ShimMatches = rbm.totalKuboL1ShimMatches := by
  unfold l1ShimReadStep
  repeat' split
  all_goals rfl

@[simp] theorem pres_totalKuboL1ShimMatches_l1NginxReadStep (p : String) (rs : ResultSet) (rbm : ResponseBytesMismatch) :
    (l1NginxReadStep p rs rbm).totalKuboL1ShimMatches = rbm.totalKuboL1ShimMatches := by
  unfold l1NginxReadStep
  repeat' split
  all_goals rfl

@[simp] theorem pres_totalKuboL1ShimMatches_bifrostReadStep (p : String) (rs : ResultSet) (rbm : ResponseBytesMismatch) :
    (bifrostReadStep p rs rbm).totalKuboL1ShimMatches = rbm.totalKuboL1ShimMatches := by
  unfold bifrostReadStep
  repeat' split
  all_goals rfl

@[simp] theorem pres_totalKuboL1ShimMatches_kuboLassiePair (p : String) (ex : String → Except String String) (rs : ResultSet)
    (a b : String) (rbm : ResponseBytesMismatch) :
    (kuboLassiePair p ex rs a b rbm).totalKuboL1ShimMatches = rbm.totalKuboL1ShimMatches := by
  unfold kuboLassiePair
  repeat' split
  all_goals rfl

@[simp] theorem pres_totalKuboL1ShimMatches_kuboL1NginxPair (p : String) (ex : String → Except String String) (rs : ResultSet)
    (a b : String) (rbm : ResponseBytesMismatch) :
    (kuboL1NginxPair p ex rs a b rbm).totalKuboL1ShimMatches = rbm.totalKuboL1ShimMatches := by
  unfold kuboL1NginxPair
  repeat' split
  all_goals rfl

@[simp] theorem pres_totalKuboL1ShimMatches_kuboBifrostPair (p : String) (rs : ResultSet) (a b : String) (rbm : ResponseBytesMismatch) :
    (kuboBifrostPair p rs a b rbm).totalKuboL1ShimMatches = rbm.totalKuboL1ShimMatches := by
  unfold kuboBifrostPair
  repeat' split
  all_goals rfl

@[simp] theorem pres_totalKuboL1ShimMatches_lassieShimPair (p : String) (rs : ResultSet) (a b : String) (rbm : ResponseBytesMismatch) :
    (lassieShimPair p rs a b rbm).totalKuboL1ShimMatches = rbm.totalKuboL1ShimMatches := by
  unfold lassieShimPair
  repeat' split
  all_goals rfl

@[simp] theorem pres_totalKuboL1ShimMatches_shimNginxPair (p : String) (rs : ResultSet) (a b : String) (rbm : ResponseBytesMismatch) :
    (shimNginxPair p rs a b rbm).totalKuboL1ShimMatches = rbm.totalKuboL1ShimMatches := by
  unfold shimNginxPair
  repeat' split
  all_goals rfl

@[simp] theorem pres_kuboL1NginxMismatches_lassieReadStep (p : String) (rs : ResultSet) (rbm : ResponseBytesMismatch) :
    (lassieReadStep p rs rbm).kuboL1NginxMismatches = rbm.kuboL1NginxMismatches := by
  unfold lassieReadStep
  repeat' split
  all_goals rfl

@[simp] theorem pres_kuboL1NginxMismatches_l1ShimReadStep (p : String) (rs : ResultSet) (rbm : ResponseBytesMismatch) :
    (l1ShimReadStep p rs rbm).kuboL1NginxMismatches = rbm.kuboL1NginxMismatches := by
  unfold l1ShimReadStep
  repeat' split
  all_goals rfl

@[simp] theorem pres_kuboL1NginxMismatches_l1NginxReadStep (p : String) (rs : ResultSet) (rbm : ResponseBytesMismatch) :
    (l1NginxReadStep p rs rbm).kuboL1NginxMismatches = rbm.kuboL1NginxMismatches := by
  unfold l1NginxReadStep
  repeat' split
  all_goals rfl

@[simp] theorem pres_kuboL1NginxMismatches_bifrostReadStep (p : String) (rs : ResultSet) (rbm : ResponseBytesMismatch) :
    (bifrostReadStep p rs rbm).kuboL1NginxMismatches = rbm.kuboL1NginxMismatches := by
  unfold bifrostReadStep
  repeat' split
  all_goals rfl

@[simp] theorem pres_kuboL1NginxMismatches_kuboLassiePair (p : String) (ex : String → Except String String) (rs : ResultSet)
    (a b : String) (rbm : ResponseBytesMismatch) :
    (kuboLassiePair p ex rs a b rbm).kuboL1NginxMismatches = rbm.kuboL1NginxMismatches := by
  unfold kuboLassiePair
  repeat' split
  all_goals rfl

@[simp] theorem pres_kuboL1NginxMismatches_kuboL1ShimPair (p : String) (ex : String → Except String String) (rs : ResultSet)
    (a b : String) (rbm : ResponseBytesMismatch) :
    (kuboL1ShimPair p ex rs a b rbm).kuboL1NginxMismatches = rbm.kuboL1NginxMismatches := by
  unfold kuboL1ShimPair
  repeat' split
  all_goals rfl

@[simp] theorem pres_kuboL1NginxMismatches_kuboBifrostPair (p : String) (rs : ResultSet) (a b : String) (rbm : ResponseBytesMismatch) :
    (kuboBifrostPair p rs a b rbm).kuboL1NginxMismatches = rbm.kuboL1NginxMismatches := by
  unfold kuboBifrostPair
  repeat' split
  all_goals rfl

@[simp] theorem pres_kuboL1NginxMismatches_lassieShimPair (p : String) (rs : ResultSet) (a b : String) (rbm : ResponseBytesMismatch) :
    (lassieShimPair p rs a b rbm).kuboL1NginxMismatches = rbm.kuboL1NginxMismatches := by
  unfold lassieShimPair
  repeat' split
  all_goals rfl

@[simp] theorem pres_kuboL1NginxMismatches_shimNginxPair (p : String) (rs : ResultSet) (a b : String) (rbm : ResponseBytesMismatch) :
    (shimNginxPair p rs a b rbm).kuboL1NginxMismatches = rbm.kuboL1NginxMismatches := by
  unfold shimNginxPair
  repeat' split
  all_goals rfl

@[simp] theorem pres_kuboL1NginxMismatchPaths_lassieReadStep (p : String) (rs : ResultSet) (rbm : ResponseBytesMismatch) :
    (lassieReadStep p rs rbm).kuboL1NginxMismatchPaths = rbm.kuboL1NginxMismatchPaths := by
  unfold lassieReadStep
  repeat' split
  all_goals rfl

@[simp] theorem pres_kuboL1NginxMismatchPaths_l1ShimReadStep (p : String) (rs : ResultSet) (rbm : ResponseBytesMismatch) :
    (l1ShimReadStep p rs rbm).kuboL1NginxMismatchPaths = rbm.kuboL1NginxMismatchPaths := by
  unfold l1ShimReadStep
  repeat' split
  all_goals rfl

@[simp] theorem pres_kuboL1NginxMismatchPaths_l1NginxReadStep (p : String) (rs : ResultSet) (rbm : ResponseBytesMismatch) :
    (l1NginxReadStep p rs rbm).kuboL1NginxMismatchPaths = rbm.kuboL1NginxMismatchPaths := by
  unfold l1NginxReadStep
  repeat' split
  all_goals rfl

@[simp] theorem pres_kuboL1NginxMismatchPaths_bifrostReadStep (p : String) (rs : ResultSet) (rbm : ResponseBytesMismatch) :
    (bifrostReadStep p rs rbm).kuboL1NginxMismatchPaths = rbm.kuboL1NginxMismatchPaths := by
  unfold bifrostReadStep
  repeat' split
  all_goals rfl

@[simp] theorem pres_kuboL1NginxMismatchPaths_kuboLassiePair (p : String) (ex : String → Except String String) (rs : ResultSet)
    (a b : String) (rbm : ResponseBytesMismatch) :
    (kuboLassiePair p ex rs a b rbm).kuboL1NginxMismatchPaths = rbm.kuboL1NginxMismatchPaths := by
  unfold kuboLassiePair
  repeat' split
  all_goals rfl

@[simp] theorem pres_kuboL1NginxMismatchPaths_kuboL1ShimPair (p : String) (ex : String → Except String String) (rs : ResultSet)
    (a b : String) (rbm : ResponseBytesMismatch) :
    (kuboL1ShimPair p ex rs a b rbm).kuboL1NginxMismatchPaths = rbm.kuboL1NginxMismatchPaths := by
  unfold kuboL1ShimPair
  repeat' split
  all_goals rfl

@[simp] theorem pres_kuboL1NginxMismatchPaths_kuboBifrostPair (p : String) (rs : ResultSet) (a b : String) (rbm : ResponseBytesMismatch) :
    (kuboBifrostPair p rs a b rbm).kuboL1NginxMismatchPaths = rbm.kuboL1NginxMismatchPaths := by
  unfold kuboBifrostPair
  repeat' split
  all_goals rfl

@[simp] theorem pres_kuboL1NginxMismatchPaths_lassieShimPair (p : String) (rs : ResultSet) (a b : String) (rbm : ResponseBytesMismatch) :
    (lassieShimPair p rs a b rbm).kuboL1NginxMismatchPaths = rbm.kuboL1NginxMismatchPaths := by
  unfold lassieShimPair
  repeat' split
  all_goals rfl

@[simp] theorem pres_kuboL1NginxMismatchPaths_shimNginxPair (p : String) (rs : ResultSet) (a b : String) (rbm : ResponseBytesMismatch) :
    (shimNginxPair p rs a b rbm).kuboL1NginxMismatchPaths = rbm.kuboL1NginxMismatchPaths := by
  unfold shimNginxPair
  repeat' split
  all_goals rfl

@[simp] theorem pres_totalKuboL1NginxMatches_lassieReadStep (p : String) (rs : ResultSet) (rbm : ResponseBytesMismatch) :
    (lassieReadStep p rs rbm).totalKuboL1NginxMatches = rbm.totalKuboL1NginxMatches := by
  unfold lassieReadStep
  repeat' split
  all_goals rfl

@[simp] theorem pres_totalKuboL1NginxMatches_l1ShimReadStep (p : String) (rs : ResultSet) (rbm : ResponseBytesMismatch) :
    (l1ShimReadStep p rs rbm).totalKuboL1NginxMatches = rbm.totalKuboL1NginxMatches := by
  unfold l1ShimReadStep
  repeat' split
  all_goals rfl

@[simp] theorem pres_totalKuboL1NginxMatches_l1NginxReadStep (p : String) (rs : ResultSet) (rbm : ResponseBytesMismatch) :
    (l1NginxReadStep p rs rbm).totalKuboL1NginxMatches = rbm.totalKuboL1NginxMatches := by
  unfold l1NginxReadStep
  repeat' split
  all_goals rfl

@[simp] theorem pres_totalKuboL1NginxMatches_bifrostReadStep (p : String) (rs : ResultSet) (rbm : ResponseBytesMismatch) :
    (bifrostReadStep p rs rbm).totalKuboL1NginxMatches = rbm.totalKuboL1NginxMatches := by
  unfold bifrostReadStep
  repeat' split
  all_goals rfl

@[simp] theorem pres_totalKuboL1NginxMatches_kuboLassiePair (p : String) (ex : String → Except String String) (rs : ResultSet)
    (a b : String) (rbm : ResponseBytesMismatch) :
    (kuboLassiePair p ex rs a b rbm).totalKuboL1NginxMatches = rbm.totalKuboL1NginxMatches := by
  unfold kuboLassiePair
  repeat' split
  all_goals rfl

@[simp] theorem pres_totalKuboL1NginxMatches_kuboL1ShimPair (p : String) (ex : String → Except String String) (rs : ResultSet)
    (a b : String) (rbm : ResponseBytesMismatch) :
    (kuboL1ShimPair p ex rs a b rbm).totalKuboL1NginxMatches = rbm.totalKuboL1NginxMatches := by
  unfold kuboL1ShimPair
  repeat' split
  all_goals rfl

@[simp] theorem pres_totalKuboL1NginxMatches_kuboBifrostPair (p : String) (rs : ResultSet) (a b : String) (rbm : ResponseBytesMismatch) :
    (kuboBifrostPair p rs a b rbm).totalKuboL1NginxMatches = rbm.totalKuboL1NginxMatches := by
  unfold kuboBifrostPair
  repeat' split
  all_goals rfl

@[simp] theorem pres_totalKuboL1NginxMatches_lassieShimPair (p : String) (rs : ResultSet) (a b : String) (rbm : ResponseBytesMismatch) :
    (lassieShimPair p rs a b rbm).totalKuboL1NginxMatches = rbm.totalKuboL1NginxMatches := by
  unfold lassieShimPair
  repeat' split
  all_goals rfl

@[simp] theorem pres_totalKuboL1NginxMatches_shimNginxPair (p : String) (rs : ResultSet) (a b : String) (rbm : ResponseBytesMismatch) :
    (shimNginxPair p rs a b rbm).totalKuboL1NginxMatches = rbm.totalKuboL1NginxMatches := by
  unfold shimNginxPair
  repeat' split
  all_goals rfl

@[simp] theorem pres_kuboBifrostMismatches_lassieReadStep (p : String) (rs : ResultSet) (rbm : ResponseBytesMismatch) :
    (lassieReadStep p rs rbm).kuboBifrostMismatches = rbm.kuboBifrostMismatches := by
  unfold lassieReadStep
  repeat' split
  all_goals rfl

@[simp] theorem pres_kuboBifrostMismatches_l1ShimReadStep (p : String) (rs : ResultSet) (rbm : ResponseBytesMismatch) :
    (l1ShimReadStep p rs rbm).kuboBifrostMismatches = rbm.kuboBifrostMismatches := by
  unfold l1ShimReadStep
  repeat' split
  all_goals rfl

@[simp] theorem pres_kuboBifrostMismatches_l1NginxReadStep (p : String) (rs : ResultSet) (rbm : ResponseBytesMismatch) :
    (l1NginxReadStep p rs rbm).kuboBifrostMismatches = rbm.kuboBifrostMismatches := by
  unfold l1NginxReadStep
  repeat' split
  all_goals rfl

@[simp] theorem pres_kuboBifrostMismatches_bifrostReadStep (p : String) (rs : ResultSet) (rbm : ResponseBytesMismatch) :
    (bifrostReadStep p rs rbm).kuboBifrostMismatches = rbm.kuboBifrostMismatches := by
  unfold bifrostReadStep
  repeat' split
  all_goals rfl

@[simp] theorem pres_kuboBifrostMismatches_kuboLassiePair (p : String) (ex : String → Except String String) (rs : ResultSet)
    (a b : String) (rbm : ResponseBytesMismatch) :
    (kuboLassiePair p ex rs a b rbm).kuboBifrostMismatches = rbm.kuboBifrostMismatches := by
  unfold kuboLassiePair
  repeat' split
  all_goals rfl

@[simp] theorem pres_kuboBifrostMismatches_kuboL1ShimPair (p : String) (ex : String → Except String String) (rs : ResultSet)
    (a b : String) (rbm : ResponseBytesMismatch) :
    (kuboL1ShimPair p ex rs a b rbm).kuboBifrostMismatches = rbm.kuboBifrostMismatches := by
  unfold kuboL1ShimPair
  repeat' split
  all_goals rfl

@[simp] theorem pres_kuboBifrostMismatches_kuboL1NginxPair (p : String) (ex : String → Except String String) (rs : ResultSet)
    (a b : String) (rbm : ResponseBytesMismatch) :
    (kuboL1NginxPair p ex rs a b rbm).kuboBifrostMismatches = rbm.kuboBifrostMismatches := by
  unfold kuboL1NginxPair
  repeat' split
  all_goals rfl

@[simp] theorem pres_kuboBifrostMismatches_lassieShimPair (p : String) (rs : ResultSet) (a b : String) (rbm : ResponseBytesMismatch) :
    (lassieShimPair p rs a b rbm).kuboBifrostMismatches = rbm.kuboBifrostMismatches := by
  unfold lassieShimPair
  repeat' split
  all_goals rfl

@[simp] theorem pres_kuboBifrostMismatches_shimNginxPair (p : String) (rs : ResultSet) (a b : String) (rbm : ResponseBytesMismatch) :
    (shimNginxPair p rs a b rbm).kuboBifrostMismatches = rbm.kuboBifrostMismatches := by
  unfold shimNginxPair
  repeat' split
  all_goals rfl

@[simp] theorem pres_kuboBifrostMismatchPaths_lassieReadStep (p : String) (rs : ResultSet) (rbm : ResponseBytesMismatch) :
    (lassieReadStep p rs rbm).kuboBifrostMismatchPaths = rbm.kuboBifrostMismatchPaths := by
  unfold lassieReadStep
  repeat' split
  all_goals rfl

@[simp] theorem pres_kuboBifrostMismatchPaths_l1ShimReadStep (p : String) (rs : ResultSet) (rbm : ResponseBytesMismatch) :
    (l1ShimReadStep p rs rbm).kuboBifrostMismatchPaths = rbm.kuboBifrostMismatchPaths := by
  unfold l1ShimReadStep
  repeat' split
  all_goals rfl

@[simp] theorem pres_kuboBifrostMismatchPaths_l1NginxReadStep (p : String) (rs : ResultSet) (rbm : ResponseBytesMismatch) :
    (l1NginxReadStep p rs rbm).kuboBifrostMismatchPaths = rbm.kuboBifrostMismatchPaths := by
  unfold l1NginxReadStep
  repeat' split
  all_goals rfl

@[simp] theorem pres_kuboBifrostMismatchPaths_bifrostReadStep (p : String) (rs : ResultSet) (rbm : ResponseBytesMismatch) :
    (bifrostReadStep p rs rbm).kuboBifrostMismatchPaths = rbm.kuboBifrostMismatchPaths := by
  unfold bifrostReadStep
  repeat' split
  all_goals rfl

@[simp] theorem pres_kuboBifrostMismatchPaths_kuboLassiePair (p : String) (ex : String → Except String String) (rs : ResultSet)
    (a b : String) (rbm : ResponseBytesMismatch) :
    (kuboLassiePair p ex rs a b rbm).kuboBifrostMismatchPaths = rbm.kuboBifrostMismatchPaths := by
  unfold kuboLassiePair
  repeat' split
  all_goals rfl

@[simp] theorem pres_kuboBifrostMismatchPaths_kuboL1ShimPair (p : String) (ex : String → Except String String) (rs : ResultSet)
    (a b : String) (rbm : ResponseBytesMismatch) :
    (kuboL1ShimPair p ex rs a b rbm).kuboBifrostMismatchPaths = rbm.kuboBifrostMismatchPaths := by
  unfold kuboL1ShimPair
  repeat' split
  all_goals rfl

@[simp] theorem pres_kuboBifrostMismatchPaths_kuboL1NginxPair (p : String) (ex : String → Except String String) (rs : ResultSet)
    (a b : String) (rbm : ResponseBytesMismatch) :
    (kuboL1NginxPair p ex rs a b rbm).kuboBifrostMismatchPaths = rbm.kuboBifrostMismatchPaths := by
  unfold kuboL1NginxPair
  repeat' split
  all_goals rfl

@[simp] theorem pres_kuboBifrostMismatchPaths_lassieShimPair (p : String) (rs : ResultSet) (a b : String) (rbm : ResponseBytesMismatch) :
    (lassieShimPair p rs a b rbm).kuboBifrostMismatchPaths = rbm.kuboBifrostMismatchPaths := by
  unfold lassieShimPair
  repeat' split
  all_goals rfl

@[simp] theorem pres_kuboBifrostMismatchPaths_shimNginxPair (p : String) (rs : ResultSet) (a b : String) (rbm : ResponseBytesMismatch) :
    (shimNginxPair p rs a b rbm).kuboBifrostMismatchPaths = rbm.kuboBifrostMismatchPaths := by
  unfold shimNginxPair
  repeat' split
  all_goals rfl

@[simp] theorem pres_totalKuboBifrostMatches_lassieReadStep (p : String) (rs : ResultSet) (rbm : ResponseBytesMismatch) :
    (lassieReadStep p rs rbm).totalKuboBifrostMatches = rbm.totalKuboBifrostMatches := by
  unfold lassieReadStep
  repeat' split
  all_goals rfl

@[simp] theorem pres_totalKuboBifrostMatches_l1ShimReadStep (p : String) (rs : ResultSet) (rbm : ResponseBytesMismatch) :
    (l1ShimReadStep p rs rbm).totalKuboBifrostMatches = rbm.totalKuboBifrostMatches := by
  unfold l1ShimReadStep
  repeat' split
  all_goals rfl

@[simp] theorem pres_totalKuboBifrostMatches_l1NginxReadStep (p : String) (rs : ResultSet) (rbm : ResponseBytesMismatch) :
    (l1NginxReadStep p rs rbm).totalKuboBifrostMatches = rbm.totalKuboBifrostMatches := by
  unfold l1NginxReadStep
  repeat' split
  all_goals rfl

@[simp] theorem pres_totalKuboBifrostMatches_bifrostReadStep (p : String) (rs : ResultSet) (rbm : ResponseBytesMismatch) :
    (bifrostReadStep p rs rbm).totalKuboBifrostMatches = rbm.totalKuboBifrostMatches := by
  unfold bifrostReadStep
  repeat' split
  all_goals rfl

@[simp] theorem pres_totalKuboBifrostMatches_kuboLassiePair (p : String) (ex : String → Except String String) (rs : ResultSet)
    (a b : String) (rbm : ResponseBytesMismatch) :
    (kuboLassiePair p ex rs a b rbm).totalKuboBifrostMatches = rbm.totalKuboBifrostMatches := by
  unfold kuboLassiePair
  repeat' split
  all_goals rfl

@[simp] theorem pres_totalKuboBifrostMatches_kuboL1ShimPair (p : String) (ex : String → Except String String) (rs : ResultSet)
    (a b : String) (rbm : ResponseBytesMismatch) :
    (kuboL1ShimPair p ex rs a b rbm).totalKuboBifrostMatches = rbm.totalKuboBifrostMatches := by
  unfold kuboL1ShimPair
  repeat' split
  all_goals rfl

@[simp] theorem pres_totalKuboBifrostMatches_kuboL1NginxPair (p : String) (ex : String → Except String String) (rs : ResultSet)
    (a b : String) (rbm : ResponseBytesMismatch) :
    (kuboL1NginxPair p ex rs a b rbm).totalKuboBifrostMatches = rbm.totalKuboBifrostMatches := by
  unfold kuboL1NginxPair
  repeat' split
  all_goals rfl

@[simp] theorem pres_totalKuboBifrostMatches_lassieShimPair (p : String) (rs : ResultSet) (a b : String) (rbm : ResponseBytesMismatch) :
    (lassieShimPair p rs a b rbm).totalKuboBifrostMatches = rbm.totalKuboBifrostMatches := by
  unfold lassieShimPair
  repeat' split
  all_goals rfl

@[simp] theorem pres_totalKuboBifrostMatches_shimNginxPair (p : String) (rs : ResultSet) (a b : String) (rbm : ResponseBytesMismatch) :
    (shimNginxPair p rs a b rbm).totalKuboBifrostMatches = rbm.totalKuboBifrostMatches := by
  unfold shimNginxPair
  repeat' split
  all_goals rfl

@[simp] theorem pres_lassieShimMismatches_lassieReadStep (p : String) (rs : ResultSet) (rbm : ResponseBytesMismatch) :
    (lassieReadStep p rs rbm).lassieShimMismatches = rbm.lassieShimMismatches := by
  unfold lassieReadStep
  repeat' split
  all_goals rfl

@[simp] theorem pres_lassieShimMismatches_l1ShimReadStep (p : String) (rs : ResultSet) (rbm : ResponseBytesMismatch) :
    (l1ShimReadStep p rs rbm).lassieShimMismatches = rbm.lassieShimMismatches := by
  unfold l1ShimReadStep
  repeat' split
  all_goals rfl

@[simp] theorem pres_lassieShimMismatches_l1NginxReadStep (p : String) (rs : ResultSet) (rbm : ResponseBytesMismatch) :
    (l1NginxReadStep p rs rbm).lassieShimMismatches = rbm.lassieShimMismatches := by
  unfold l1NginxReadStep
  repeat' split
  all_goals rfl

@[simp] theorem pres_lassieShimMismatches_bifrostReadStep (p : String) (rs : ResultSet) (rbm : ResponseBytesMismatch) :
    (bifrostReadStep p rs rbm).lassieShimMismatches = rbm.lassieShimMismatches := by
  unfold bifrostReadStep
  repeat' split
  all_goals rfl

@[simp] theorem pres_lassieShimMismatches_kuboLassiePair (p : String) (ex : String → Except String String) (rs : ResultSet)
    (a b : String) (rbm : ResponseBytesMismatch) :
    (kuboLassiePair p ex rs a b rbm).lassieShimMismatches = rbm.lassieShimMismatches := by
  unfold kuboLassiePair
  repeat' split
  all_goals rfl

@[simp] theorem pres_lassieShimMismatches_kuboL1ShimPair (p : String) (ex : String → Except String String) (rs : ResultSet)
    (a b : String) (rbm : ResponseBytesMismatch) :
    (kuboL1ShimPair p ex rs a b rbm).lassieShimMismatches = rbm.lassieShimMismatches := by
  unfold kuboL1ShimPair
  repeat' split
  all_goals rfl

@[simp] theorem pres_lassieShimMismatches_kuboL1NginxPair (p : String) (ex : String → Except String String) (rs : ResultSet)
    (a b : String) (rbm : ResponseBytesMismatch) :
    (kuboL1NginxPair p ex rs a b rbm).lassieShimMismatches = rbm.lassieShimMismatches := by
  unfold kuboL1NginxPair
  repeat' split
  all_goals rfl

@[simp] theorem pres_lassieShimMismatches_kuboBifrostPair (p : String) (rs : ResultSet) (a b : String) (rbm : ResponseBytesMismatch) :
    (kuboBifrostPair p rs a b rbm).lassieShimMismatches = rbm.lassieShimMismatches := by
  unfold kuboBifrostPair
  repeat' split
  all_goals rfl

@[simp] theorem pres_lassieShimMismatches_shimNginxPair (p : String) (rs : ResultSet) (a b : String) (rbm : ResponseBytesMismatch) :
    (shimNginxPair p rs a b rbm).lassieShimMismatches = rbm.lassieShimMismatches := by
  unfold shimNginxPair
  repeat' split
  all_goals rfl

@[simp] theorem pres_lassieShimMismatchPaths_lassieReadStep (p : String) (rs : ResultSet) (rbm : ResponseBytesMismatch) :
    (lassieReadStep p rs rbm).lassieShimMismatchPaths = rbm.lassieShimMismatchPaths := by
  unfold lassieReadStep
  repeat' split
  all_goals rfl

@[simp] theorem pres_lassieShimMismatchPaths_l1ShimReadStep (p : String) (rs : ResultSet) (rbm : ResponseBytesMismatch) :
    (l1ShimReadStep p rs rbm).lassieShimMismatchPaths = rbm.lassieShimMismatchPaths := by
  unfold l1ShimReadStep
  repeat' split
  all_goals rfl

@[simp] theorem pres_lassieShimMismatchPaths_l1NginxReadStep (p : String) (rs : ResultSet) (rbm : ResponseBytesMismatch) :
    (l1NginxReadStep p rs rbm).lassieShimMismatchPaths = rbm.lassieShimMismatchPaths := by
  unfold l1NginxReadStep
  repeat' split
  all_goals rfl

@[simp] theorem pres_lassieShimMismatchPaths_bifrostReadStep (p : String) (rs : ResultSet) (rbm : ResponseBytesMismatch) :
    (bifrostReadStep p rs rbm).lassieShimMismatchPaths = rbm.lassieShimMismatchPaths := by
  unfold bifrostReadStep
  repeat' split
  all_goals rfl

@[simp] theorem pres_lassieShimMismatchPaths_kuboLassiePair (p : String) (ex : String → Except String String) (rs : ResultSet)
    (a b : String) (rbm : ResponseBytesMismatch) :
    (kuboLassiePair p ex rs a b rbm).lassieShimMismatchPaths = rbm.lassieShimMismatchPaths := by
  unfold kuboLassiePair
  repeat' split
  all_goals rfl

@[simp] theorem pres_lassieShimMismatchPaths_kuboL1ShimPair (p : String) (ex : String → Except String String) (rs : ResultSet)
    (a b : String) (rbm : ResponseBytesMismatch) :
    (kuboL1ShimPair p ex rs a b rbm).lassieShimMismatchPaths = rbm.lassieShimMismatchPaths := by
  unfold kuboL1ShimPair
  repeat' split
  all_goals rfl

@[simp] theorem pres_lassieShimMismatchPaths_kuboL1NginxPair (p : String) (ex : String → Except String String) (rs : ResultSet)
    (a b : String) (rbm : ResponseBytesMismatch) :
    (kuboL1NginxPair p ex rs a b rbm).lassieShimMismatchPaths = rbm.lassieShimMismatchPaths := by
  unfold kuboL1NginxPair
  repeat' split
  all_goals rfl

@[simp] theorem pres_lassieShimMismatchPaths_kuboBifrostPair (p : String) (rs : ResultSet) (a b : String) (rbm : ResponseBytesMismatch) :
    (kuboBifrostPair p rs a b rbm).lassieShimMismatchPaths = rbm.lassieShimMismatchPaths := by
  unfold kuboBifrostPair
  repeat' split
  all_goals rfl

@[simp] theorem pres_lassieShimMismatchPaths_shimNginxPair (p : String) (rs : ResultSet) (a b : String) (rbm : ResponseBytesMismatch) :
    (shimNginxPair p rs a b rbm).lassieShimMismatchPaths = rbm.lassieShimMismatchPaths := by
  unfold shimNginxPair
  repeat' split
  all_goals rfl

@[simp] theorem pres_shimNginxMismatches_lassieReadStep (p : String) (rs : ResultSet) (rbm : ResponseBytesMismatch) :
    (lassieReadStep p rs rbm).shimNginxMismatches = rbm.shimNginxMismatches := by
  unfold lassieReadStep
  repeat' split
  all_goals rfl

@[simp] theorem pres_shimNginxMismatches_l1ShimReadStep (p : String) (rs : ResultSet) (rbm : ResponseBytesMismatch) :
    (l1ShimReadStep p rs rbm).shimNginxMismatches = rbm.shimNginxMismatches := by
  unfold l1ShimReadStep
  repeat' split
  all_goals rfl

@[simp] theorem pres_shimNginxMismatches_l1NginxReadStep (p : String) (rs : ResultSet) (rbm : ResponseBytesMismatch) :
    (l1NginxReadStep p rs rbm).shimNginxMismatches = rbm.shimNginxMismatches := by
  unfold l1NginxReadStep
  repeat' split
  all_goals rfl

@[simp] theorem pres_shimNginxMismatches_bifrostReadStep (p : String) (rs : ResultSet) (rbm : ResponseBytesMismatch) :
    (bifrostReadStep p rs rbm).shimNginxMismatches = rbm.shimNginxMismatches := by
  unfold bifrostReadStep
  repeat' split
  all_goals rfl

@[simp] theorem pres_shimNginxMismatches_kuboLassiePair (p : String) (ex : String → Except String String) (rs : ResultSet)
    (a b : String) (rbm : ResponseBytesMismatch) :
    (kuboLassiePair p ex rs a b rbm).shimNginxMismatches = rbm.shimNginxMismatches := by
  unfold kuboLassiePair
  repeat' split
  all_goals rfl

@[simp] theorem pres_shimNginxMismatches_kuboL1ShimPair (p : String) (ex : String → Except String String) (rs : ResultSet)
    (a b : String) (rbm : ResponseBytesMismatch) :
    (kuboL1ShimPair p ex rs a b rbm).shimNginxMismatches = rbm.shimNginxMismatches := by
  unfold kuboL1ShimPair
  repeat' split
  all_goals rfl

@[simp] theorem pres_shimNginxMismatches_kuboL1NginxPair (p : String) (ex : String → Except String String) (rs : ResultSet)
    (a b : String) (rbm : ResponseBytesMismatch) :
    (kuboL1NginxPair p ex rs a b rbm).shimNginxMismatches = rbm.shimNginxMismatches := by
  unfold kuboL1NginxPair
  repeat' split
  all_goals rfl

@[simp] theorem pres_shimNginxMismatches_kuboBifrostPair (p : String) (rs : ResultSet) (a b : String) (rbm : ResponseBytesMismatch) :
    (kuboBifrostPair p rs a b rbm).shimNginxMismatches = rbm.shimNginxMismatches := by
  unfold kuboBifrostPair
  repeat' split
  all_goals rfl

@[simp] theorem pres_shimNginxMismatches_lassieShimPair (p : String) (rs : ResultSet) (a b : String) (rbm : ResponseBytesMismatch) :
    (lassieShimPair p rs a b rbm).shimNginxMismatches = rbm.shimNginxMismatches := by
  unfold lassieShimPair
  repeat' split
  all_goals rfl

@[simp] theorem pres_shimNginxMismatchPaths_lassieReadStep (p : String) (rs : ResultSet) (rbm : ResponseBytesMismatch) :
    (lassieReadStep p rs rbm).shimNginxMismatchPaths = rbm.shimNginxMismatchPaths := by
  unfold lassieReadStep
  repeat' split
  all_goals rfl

@[simp] theorem pres_shimNginxMismatchPaths_l1ShimReadStep (p : String) (rs : ResultSet) (rbm : ResponseBytesMismatch) :
    (l1ShimReadStep p rs rbm).shimNginxMismatchPaths = rbm.shimNginxMismatchPaths := by
  unfold l1ShimReadStep
  repeat' split
  all_goals rfl

@[simp] theorem pres_shimNginxMismatchPaths_l1NginxReadStep (p : String) (rs : ResultSet) (rbm : ResponseBytesMismatch) :
    (l1NginxReadStep p rs rbm).shimNginxMismatchPaths = rbm.shimNginxMismatchPaths := by
  unfold l1NginxReadStep
  repeat' split
  all_goals rfl

@[simp] theorem pres_shimNginxMismatchPaths_bifrostReadStep (p : String) (rs : ResultSet) (rbm : ResponseBytesMismatch) :
    (bifrostReadStep p rs rbm).shimNginxMismatchPaths = rbm.shimNginxMismatchPaths := by
  unfold bifrostReadStep
  repeat' split
  all_goals rfl

@[simp] theorem pres_shimNginxMismatchPaths_kuboLassiePair (p : String) (ex : String → Except String String) (rs : ResultSet)
    (a b : String) (rbm : ResponseBytesMismatch) :
    (kuboLassiePair p ex rs a b rbm).shimNginxMismatchPaths = rbm.shimNginxMismatchPaths := by
  unfold kuboLassiePair
  repeat' split
  all_goals rfl

@[simp] theorem pres_shimNginxMismatchPaths_kuboL1ShimPair (p : String) (ex : String → Except String String) (rs : ResultSet)
    (a b : String) (rbm : ResponseBytesMismatch) :
    (kuboL1ShimPair p ex rs a b rbm).shimNginxMismatchPaths = rbm.shimNginxMismatchPaths := by
  unfold kuboL1ShimPair
  repeat' split
  all_goals rfl

@[simp] theorem pres_shimNginxMismatchPaths_kuboL1NginxPair (p : String) (ex : String → Except String String) (rs : ResultSet)
    (a b : String) (rbm : ResponseBytesMismatch) :
    (kuboL1NginxPair p ex rs a b rbm).shimNginxMismatchPaths = rbm.shimNginxMismatchPaths := by
  unfold kuboL1NginxPair
  repeat' split
  all_goals rfl

@[simp] theorem pres_shimNginxMismatchPaths_kuboBifrostPair (p : String) (rs : ResultSet) (a b : String) (rbm : ResponseBytesMismatch) :
    (kuboBifrostPair p rs a b rbm).shimNginxMismatchPaths = rbm.shimNginxMismatchPaths := by
  unfold kuboBifrostPair
  repeat' split
  all_goals rfl

@[simp] theorem pres_shimNginxMismatchPaths_lassieShimPair (p : String) (rs : ResultSet) (a b : String) (rbm : ResponseBytesMismatch) :
    (lassieShimPair p rs a b rbm).shimNginxMismatchPaths = rbm.shimNginxMismatchPaths := by
  unfold lassieShimPair
  repeat' split
  all_goals rfl

@[simp] theorem pres_totalLassieReadError_l1ShimReadStep (p : String) (rs : ResultSet) (rbm : ResponseBytesMismatch) :
    (l1ShimReadStep p rs rbm).totalLassieReadError = rbm.totalLassieReadError := by
  unfold l1ShimReadStep
  repeat' split
  all_goals rfl

@[simp] theorem pres_totalLassieReadError_l1NginxReadStep (p : String) (rs : ResultSet) (rbm : ResponseBytesMismatch) :
    (l1NginxReadStep p rs rbm).totalLassieReadError = rbm.totalLassieReadError := by
  unfold l1NginxReadStep
  repeat' split
  all_goals rfl

@[simp] theorem pres_totalLassieReadError_bifrostReadStep (p : String) (rs : ResultSet) (rbm : ResponseBytesMismatch) :
    (bifrostReadStep p rs rbm).totalLassieReadError = rbm.totalLassieReadError := by
  unfold bifrostReadStep
  repeat' split
  all_goals rfl

@[simp] theorem pres_totalLassieReadError_kuboLassiePair (p : String) (ex : String → Except String String) (rs : ResultSet)
    (a b : String) (rbm : ResponseBytesMismatch) :
    (kuboLassiePair p ex rs a b rbm).totalLassieReadError = rbm.totalLassieReadError := by
  unfold kuboLassiePair
  repeat' split
  all_goals rfl

@[simp] theorem pres_totalLassieReadError_kuboL1ShimPair (p : String) (ex : String → Except String String) (rs : ResultSet)
    (a b : String) (rbm : ResponseBytesMismatch) :
    (kuboL1ShimPair p ex rs a b rbm).totalLassieReadError = rbm.totalLassieReadError := by
  unfold kuboL1ShimPair
  repeat' split
  all_goals rfl

@[simp] theorem pres_totalLassieReadError_kuboL1NginxPair (p : String) (ex : String → Except String String) (rs : ResultSet)
    (a b : String) (rbm : ResponseBytesMismatch) :
    (kuboL1NginxPair p ex rs a b rbm).totalLassieReadError = rbm.totalLassieReadError := by
  unfold kuboL1NginxPair
  repeat' split
  all_goals rfl

@[simp] theorem pres_totalLassieReadError_kuboBifrostPair (p : String) (rs : ResultSet) (a b : String) (rbm : ResponseBytesMismatch) :
    (kuboBifrostPair p rs a b rbm).totalLassieReadError = rbm.totalLassieReadError := by
  unfold kuboBifrostPair
  repeat' split
  all_goals rfl

@[simp] theorem pres_totalLassieReadError_lassieShimPair (p : String) (rs : ResultSet) (a b : String) (rbm : ResponseBytesMismatch) :
    (lassieShimPair p rs a b rbm).totalLassieReadError = rbm.totalLassieReadError := by
  unfold lassieShimPair
  repeat' split
  all_goals rfl

@[simp] theorem pres_totalLassieReadError_shimNginxPair (p : String) (rs : ResultSet) (a b : String) (rbm : ResponseBytesMismatch) :
    (shimNginxPair p rs a b rbm).totalLassieReadError = rbm.totalLassieReadError := by
  unfold shimNginxPair
  repeat' split
  all_goals rfl

@[simp] theorem pres_totalL1ShimReadError_lassieReadStep (p : String) (rs : ResultSet) (rbm : ResponseBytesMismatch) :
    (lassieReadStep p rs rbm).totalL1ShimReadError = rbm.totalL1ShimReadError := by
  unfold lassieReadStep
  repeat' split
  all_goals rfl

@[simp] theorem pres_totalL1ShimReadError_l1NginxReadStep (p : String) (rs : ResultSet) (rbm : ResponseBytesMismatch) :
    (l1NginxReadStep p rs rbm).totalL1ShimReadError = rbm.totalL1ShimReadError := by
  unfold l1NginxReadStep
  repeat' split
  all_goals rfl

@[simp] theorem pres_totalL1ShimReadError_bifrostReadStep (p : String) (rs : ResultSet) (rbm : ResponseBytesMismatch) :
    (bifrostReadStep p rs rbm).totalL1ShimReadError = rbm.totalL1ShimReadError := by
  unfold bifrostReadStep
  repeat' split
  all_goals rfl

@[simp] theorem pres_totalL1ShimReadError_kuboLassiePair (p : String) (ex : String → Except String String) (rs : ResultSet)
    (a b : String) (rbm : ResponseBytesMismatch) :
    (kuboLassiePair p ex rs a b rbm).totalL1ShimReadError = rbm.totalL1ShimReadError := by
  unfold kuboLassiePair
  repeat' split
  all_goals rfl

@[simp] theorem pres_totalL1ShimReadError_kuboL1ShimPair (p : String) (ex : String → Except String String) (rs : ResultSet)
    (a b : String) (rbm : ResponseBytesMismatch) :
    (kuboL1ShimPair p ex rs a b rbm).totalL1ShimReadError = rbm.totalL1ShimReadError := by
  unfold kuboL1ShimPair
  repeat' split
  all_goals rfl

@[simp] theorem pres_totalL1ShimReadError_kuboL1NginxPair (p : String) (ex : String → Except String String) (rs : ResultSet)
    (a b : String) (rbm : ResponseBytesMismatch) :
    (kuboL1NginxPair p ex rs a b rbm).totalL1ShimReadError = rbm.totalL1ShimReadError := by
  unfold kuboL1NginxPair
  repeat' split
  all_goals rfl

@[simp] theorem pres_totalL1ShimReadError_kuboBifrostPair (p : String) (rs : ResultSet) (a b : String) (rbm : ResponseBytesMismatch) :
    (kuboBifrostPair p rs a b rbm).totalL1ShimReadError = rbm.totalL1ShimReadError := by
  unfold kuboBifrostPair
  repeat' split
  all_goals rfl

@[simp] theorem pres_totalL1ShimReadError_lassieShimPair (p : String) (rs : ResultSet) (a b : String) (rbm : ResponseBytesMismatch) :
    (lassieShimPair p rs a b rbm).totalL1ShimReadError = rbm.totalL1ShimReadError := by
  unfold lassieShimPair
  repeat' split
  all_goals rfl

@[simp] theorem pres_totalL1ShimReadError_shimNginxPair (p : String) (rs : ResultSet) (a b : String) (rbm : ResponseBytesMismatch) :
    (shimNginxPair p rs a b rbm).totalL1ShimReadError = rbm.totalL1ShimReadError := by
  unfold shimNginxPair
  repeat' split
  all_goals rfl

@[simp] theorem pres_totalL1NginxReadError_lassieReadStep (p : String) (rs : ResultSet) (rbm : ResponseBytesMismatch) :
    (lassieReadStep p rs rbm).totalL1NginxReadError = rbm.totalL1NginxReadError := by
  unfold lassieReadStep
  repeat' split
  all_goals rfl

@[simp] theorem pres_totalL1NginxReadError_l1ShimReadStep (p : String) (rs : ResultSet) (rbm : ResponseBytesMismatch) :
    (l1ShimReadStep p rs rbm).totalL1NginxReadError = rbm.totalL1NginxReadError := by
  unfold l1ShimReadStep
  repeat' split
  all_goals rfl

@[simp] theorem pres_totalL1NginxReadError_bifrostReadStep (p : String) (rs : ResultSet) (rbm : ResponseBytesMismatch) :
    (bifrostReadStep p rs rbm).totalL1NginxReadError = rbm.totalL1NginxReadError := by
  unfold bifrostReadStep
  repeat' split
  all_goals rfl

@[simp] theorem pres_totalL1NginxReadError_kuboLassiePair (p : String) (ex : String → Except String String) (rs : ResultSet)
    (a b : String) (rbm : ResponseBytesMismatch) :
    (kuboLassiePair p ex rs a b rbm).totalL1NginxReadError = rbm.totalL1NginxReadError := by
  unfold kuboLassiePair
  repeat' split
  all_goals rfl

@[simp] theorem pres_totalL1NginxReadError_kuboL1ShimPair (p : String) (ex : String → Except String String) (rs : ResultSet)
    (a b : String) (rbm : ResponseBytesMismatch) :
    (kuboL1ShimPair p ex rs a b rbm).totalL1NginxReadError = rbm.totalL1NginxReadError := by
  unfold kuboL1ShimPair
  repeat' split
  all_goals rfl

@[simp] theorem pres_totalL1NginxReadError_kuboL1NginxPair (p : String) (ex : String → Except String String) (rs : ResultSet)
    (a b : String) (rbm : ResponseBytesMismatch) :
    (kuboL1NginxPair p ex rs a b rbm).totalL1NginxReadError = rbm.totalL1NginxReadError := by
  unfold kuboL1NginxPair
  repeat' split
  all_goals rfl

@[simp] theorem pres_totalL1NginxReadError_kuboBifrostPair (p : String) (rs : ResultSet) (a b : String) (rbm : ResponseBytesMismatch) :
    (kuboBifrostPair p rs a b rbm).totalL1NginxReadError = rbm.totalL1NginxReadError := by
  unfold kuboBifrostPair
  repeat' split
  all_goals rfl

@[simp] theorem pres_totalL1NginxReadError_lassieShimPair (p : String) (rs : ResultSet) (a b : String) (rbm : ResponseBytesMismatch) :
    (lassieShimPair p rs a b rbm).totalL1NginxReadError = rbm.totalL1NginxReadError := by
  unfold lassieShimPair
  repeat' split
  all_goals rfl

@[simp] theorem pres_totalL1NginxReadError_shimNginxPair (p : String) (rs : ResultSet) (a b : String) (rbm : ResponseBytesMismatch) :
    (shimNginxPair p rs a b rbm).totalL1NginxReadError = rbm.totalL1NginxReadError := by
  unfold shimNginxPair
  repeat' split
  all_goals rfl

@[simp] theorem pres_totalBifrostReadError_lassieReadStep (p : String) (rs : ResultSet) (rbm : ResponseBytesMismatch) :
    (lassieReadStep p rs rbm).totalBifrostReadError = rbm.totalBifrostReadError := by
  unfold lassieReadStep
  repeat' split
  all_goals rfl

@[simp] theorem pres_totalBifrostReadError_l1ShimReadStep (p : String) (rs : ResultSet) (rbm : ResponseBytesMismatch) :
    (l1ShimReadStep p rs rbm).totalBifrostReadError = rbm.totalBifrostReadError := by
  unfold l1ShimReadStep
  repeat' split
  all_goals rfl

@[simp] theorem pres_totalBifrostReadError_l1NginxReadStep (p : String) (rs : ResultSet) (rbm : ResponseBytesMismatch) :
    (l1NginxReadStep p rs rbm).totalBifrostReadError = rbm.totalBifrostReadError := by
  unfold l1NginxReadStep
  repeat' split
  all_goals rfl

@[simp] theorem pres_totalBifrostReadError_kuboLassiePair (p : String) (ex : String → Except String String) (rs : ResultSet)
    (a b : String) (rbm : ResponseBytesMismatch) :
    (kuboLassiePair p ex rs a b rbm).totalBifrostReadError = rbm.totalBifrostReadError := by
  unfold kuboLassiePair
  repeat' split
  all_goals rfl

@[simp] theorem pres_totalBifrostReadError_kuboL1ShimPair (p : String) (ex : String → Except String String) (rs : ResultSet)
    (a b : String) (rbm : ResponseBytesMismatch) :
    (kuboL1ShimPair p ex rs a b rbm).totalBifrostReadError = rbm.totalBifrostReadError := by
  unfold kuboL1ShimPair
  repeat' split
  all_goals rfl

@[simp] theorem pres_totalBifrostReadError_kuboL1NginxPair (p : String) (ex : String → Except String String) (rs : ResultSet)
    (a b : String) (rbm : ResponseBytesMismatch) :
    (kuboL1NginxPair p ex rs a b rbm).totalBifrostReadError = rbm.totalBifrostReadError := by
  unfold kuboL1NginxPair
  repeat' split
  all_goals rfl

@[simp] theorem pres_totalBifrostReadError_kuboBifrostPair (p : String) (rs : ResultSet) (a b : String) (rbm : ResponseBytesMismatch) :
    (kuboBifrostPair p rs a b rbm).totalBifrostReadError = rbm.totalBifrostReadError := by
  unfold kuboBifrostPair
  repeat' split
  all_goals rfl

@[simp] theorem pres_totalBifrostReadError_lassieShimPair (p : String) (rs : ResultSet) (a b : String) (rbm : ResponseBytesMismatch) :
    (lassieShimPair p rs a b rbm).totalBifrostReadError = rbm.totalBifrostReadError := by
  unfold lassieShimPair
  repeat' split
  all_goals rfl

@[simp] theorem pres_totalBifrostReadError_shimNginxPair (p : String) (rs : ResultSet) (a b : String) (rbm : ResponseBytesMismatch) :
    (shimNginxPair p rs a b rbm).totalBifrostReadError = rbm.totalBifrostReadError := by
  unfold shimNginxPair
  repeat' split
  all_goals rfl

/-!
Frame lemmas for the status-axis blocks: each block of the
`WriteMismatchesToFile` loop mutates only its own fields of `StatusAcc`.
-/

@[simp] theorem spres_kuboLassieMismatch_lassieStatusBlock (p : String) (r : ResultSet) (acc : StatusAcc) :
    (lassieStatusBlock p r acc).kuboLassieMismatch = acc.kuboLassieMismatch := by
  unfold lassieStatusBlock
  repeat' split
  all_goals rfl

@[simp] theorem spres_kuboLassieMismatch_shimStatusBlock (p : String) (r : ResultSet) (acc : StatusAcc) :
    (shimStatusBlock p r acc).kuboLassieMismatch = acc.kuboLassieMismatch := by
  unfold shimStatusBlock
  repeat' split
  all_goals rfl

@[simp] theorem spres_kuboLassieMismatch_nginxStatusBlock (p : String) (r : ResultSet) (acc : StatusAcc) :
    (nginxStatusBlock p r acc).kuboLassieMismatch = acc.kuboLassieMismatch := by
  unfold nginxStatusBlock
  repeat' split
  all_goals rfl

@[simp] theorem spres_kuboLassieMismatch_bifrostStatusBlock (r : ResultSet) (acc : StatusAcc) :
    (bifrostStatusBlock r acc).kuboLassieMismatch = acc.kuboLassieMismatch := by
  unfold bifrostStatusBlock
  repeat' split
  all_goals rfl

@[simp] theorem spres_kuboBifrostMismatch_lassieStatusBlock (p : String) (r : ResultSet) (acc : StatusAcc) :
    (lassieStatusBlock p r acc).kuboBifrostMismatch = acc.kuboBifrostMismatch := by
  unfold lassieStatusBlock
  repeat' split
  all_goals rfl

@[simp] theorem spres_kuboBifrostMismatch_shimStatusBlock (p : String) (r : ResultSet) (acc : StatusAcc) :
    (shimStatusBlock p r acc).kuboBifrostMismatch = acc.kuboBifrostMismatch := by
  unfold shimStatusBlock
  repeat' split
  all_goals rfl

@[simp] theorem spres_kuboBifrostMismatch_nginxStatusBlock (p : String) (r : ResultSet) (acc : StatusAcc) :
    (nginxStatusBlock p r acc).kuboBifrostMismatch = acc.kuboBifrostMismatch := by
  unfold nginxStatusBlock
  repeat' split
  all_goals rfl

@[simp] theorem spres_kuboBifrostMismatch_bifrostStatusBlock (r : ResultSet) (acc : StatusAcc) :
    (bifrostStatusBlock r acc).kuboBifrostMismatch = acc.kuboBifrostMismatch := by
  unfold bifrostStatusBlock
  repeat' split
  all_goals rfl

@[simp] theorem spres_lassieShimMismatch_kuboStatusBlock (p : String) (r : ResultSet) (acc : StatusAcc) :
    (kuboStatusBlock p r acc).lassieShimMismatch = acc.lassieShimMismatch := by
  unfold kuboStatusBlock
  repeat' split
  all_goals rfl

@[simp] theorem spres_lassieShimMismatch_shimStatusBlock (p : String) (r : ResultSet) (acc : StatusAcc) :
    (shimStatusBlock p r acc).lassieShimMismatch = acc.lassieShimMismatch := by
  unfold shimStatusBlock
  repeat' split
  all_goals rfl

@[simp] theorem spres_lassieShimMismatch_nginxStatusBlock (p : String) (r : ResultSet) (acc : StatusAcc) :
    (nginxStatusBlock p r acc).lassieShimMismatch = acc.lassieShimMismatch := by
  unfold nginxStatusBlock
  repeat' split
  all_goals rfl

@[simp] theorem spres_lassieShimMismatch_bifrostStatusBlock (r : ResultSet) (acc : StatusAcc) :
    (bifrostStatusBlock r acc).lassieShimMismatch = acc.lassieShimMismatch := by
  unfold bifrostStatusBlock
  repeat' split
  all_goals rfl

@[simp] theorem spres_shimNginxMismatch_kuboStatusBlock (p : String) (r : ResultSet) (acc : StatusAcc) :
    (kuboStatusBlock p r acc).shimNginxMismatch = acc.shimNginxMismatch := by
  unfold kuboStatusBlock
  repeat' split
  all_goals rfl

@[simp] theorem spres_shimNginxMismatch_lassieStatusBlock (p : String) (r : ResultSet) (acc : StatusAcc) :
    (lassieStatusBlock p r acc).shimNginxMismatch = acc.shimNginxMismatch := by
  unfold lassieStatusBlock
  repeat' split
  all_goals rfl

@[simp] theorem spres_shimNginxMismatch_nginxStatusBlock (p : String) (r : ResultSet) (acc : StatusAcc) :
    (nginxStatusBlock p r acc).shimNginxMismatch = acc.shimNginxMismatch := by
  unfold nginxStatusBlock
  repeat' split
  all_goals rfl

@[simp] theorem spres_shimNginxMismatch_bifrostStatusBlock (r : ResultSet) (acc : StatusAcc) :
    (bifrostStatusBlock r acc).shimNginxMismatch = acc.shimNginxMismatch := by
  unfold bifrostStatusBlock
  repeat' split
  all_goals rfl

@[simp] theorem spres_nginxBifrostMismatch_kuboStatusBlock (p : String) (r : ResultSet) (acc : StatusAcc) :
    (kuboStatusBlock p r acc).nginxBifrostMismatch = acc.nginxBifrostMismatch := by
  unfold kuboStatusBlock
  repeat' split
  all_goals rfl

@[simp] theorem spres_nginxBifrostMismatch_lassieStatusBlock (p : String) (r : ResultSet) (acc : StatusAcc) :
    (lassieStatusBlock p r acc).nginxBifrostMismatch = acc.nginxBifrostMismatch := by
  unfold lassieStatusBlock
  repeat' split
  all_goals rfl

@[simp] theorem spres_nginxBifrostMismatch_shimStatusBlock (p : String) (r : ResultSet) (acc : StatusAcc) :
    (shimStatusBlock p r acc).nginxBifrostMismatch = acc.nginxBifrostMismatch := by
  unfold shimStatusBlock
  repeat' split
  all_goals rfl

@[simp] theorem spres_nginxBifrostMismatch_bifrostStatusBlock (r : ResultSet) (acc : StatusAcc) :
    (bifrostStatusBlock r acc).nginxBifrostMismatch = acc.nginxBifrostMismatch := by
  unfold bifrostStatusBlock
  repeat' split
  all_goals rfl

@[simp] theorem spres_klMismatchPaths_lassieStatusBlock (p : String) (r : ResultSet) (acc : StatusAcc) :
    (lassieStatusBlock p r acc).klMismatchPaths = acc.klMismatchPaths := by
  unfold lassieStatusBlock
  repeat' split
  all_goals rfl

@[simp] theorem spres_klMismatchPaths_shimStatusBlock (p : String) (r : ResultSet) (acc : StatusAcc) :
    (shimStatusBlock p r acc).klMismatchPaths = acc.klMismatchPaths := by
  unfold shimStatusBlock
  repeat' split
  all_goals rfl

@[simp] theorem spres_klMismatchPaths_nginxStatusBlock (p : String) (r : ResultSet) (acc : StatusAcc) :
    (nginxStatusBlock p r acc).klMismatchPaths = acc.klMismatchPaths := by
  unfold nginxStatusBlock
  repeat' split
  all_goals rfl

@[simp] theorem spres_klMismatchPaths_bifrostStatusBlock (r : ResultSet) (acc : StatusAcc) :
    (bifrostStatusBlock r acc).klMismatchPaths = acc.klMismatchPaths := by
  unfold bifrostStatusBlock
  repeat' split
  all_goals rfl

@[simp] theorem spres_kuboBifrostMismatchPaths_lassieStatusBlock (p : String) (r : ResultSet) (acc : StatusAcc) :
    (lassieStatusBlock p r acc).kuboBifrostMismatchPaths = acc.kuboBifrostMismatchPaths := by
  unfold lassieStatusBlock
  repeat' split
  all_goals rfl

@[simp] theorem spres_kuboBifrostMismatchPaths_shimStatusBlock (p : String) (r : ResultSet) (acc : StatusAcc) :
    (shimStatusBlock p r acc).kuboBifrostMismatchPaths = acc.kuboBifrostMismatchPaths := by
  unfold shimStatusBlock
  repeat' split
  all_goals rfl

@[simp] theorem spres_kuboBifrostMismatchPaths_nginxStatusBlock (p : String) (r : ResultSet) (acc : StatusAcc) :
    (nginxStatusBlock p r acc).kuboBifrostMismatchPaths = acc.kuboBifrostMismatchPaths := by
  unfold nginxStatusBlock
  repeat' split
  all_goals rfl

@[simp] theorem spres_kuboBifrostMismatchPaths_bifrostStatusBlock (r : ResultSet) (acc : StatusAcc) :
    (bifrostStatusBlock r acc).kuboBifrostMismatchPaths = acc.kuboBifrostMismatchPaths := by
  unfold bifrostStatusBlock
  repeat' split
  all_goals rfl

@[simp] theorem spres_lsMismatchPaths_kuboStatusBlock (p : String) (r : ResultSet) (acc : StatusAcc) :
    (kuboStatusBlock p r acc).lsMismatchPaths = acc.lsMismatchPaths := by
  unfold kuboStatusBlock
  repeat' split
  all_goals rfl

@[simp] theorem spres_lsMismatchPaths_shimStatusBlock (p : String) (r : ResultSet) (acc : StatusAcc) :
    (shimStatusBlock p r acc).lsMismatchPaths = acc.lsMismatchPaths := by
  unfold shimStatusBlock
  repeat' split
  all_goals rfl

@[simp] theorem spres_lsMismatchPaths_nginxStatusBlock (p : String) (r : ResultSet) (acc : StatusAcc) :
    (nginxStatusBlock p r acc).lsMismatchPaths = acc.lsMismatchPaths := by
  unfold nginxStatusBlock
  repeat' split
  all_goals rfl

@[simp] theorem spres_lsMismatchPaths_bifrostStatusBlock (r : ResultSet) (acc : StatusAcc) :
    (bifrostStatusBlock r acc).lsMismatchPaths = acc.lsMismatchPaths := by
  unfold bifrostStatusBlock
  repeat' split
  all_goals rfl

@[simp] theorem spres_snMismatchPaths_kuboStatusBlock (p : String) (r : ResultSet) (acc : StatusAcc) :
    (kuboStatusBlock p r acc).snMismatchPaths = acc.snMismatchPaths := by
  unfold kuboStatusBlock
  repeat' split
  all_goals rfl

@[simp] theorem spres_snMismatchPaths_lassieStatusBlock (p : String) (r : ResultSet) (acc : StatusAcc) :
    (lassieStatusBlock p r acc).snMismatchPaths = acc.snMismatchPaths := by
  unfold lassieStatusBlock
  repeat' split
  all_goals rfl

@[simp] theorem spres_snMismatchPaths_nginxStatusBlock (p : String) (r : ResultSet) (acc : StatusAcc) :
    (nginxStatusBlock p r acc).snMismatchPaths = acc.snMismatchPaths := by
  unfold nginxStatusBlock
  repeat' split
  all_goals rfl

@[simp] theorem spres_snMismatchPaths_bifrostStatusBlock (r : ResultSet) (acc : StatusAcc) :
    (bifrostStatusBlock r acc).snMismatchPaths = acc.snMismatchPaths := by
  unfold bifrostStatusBlock
  repeat' split
  all_goals rfl

@[simp] theorem spres_nbMismatchPaths_kuboStatusBlock (p : String) (r : ResultSet) (acc : StatusAcc) :
    (kuboStatusBlock p r acc).nbMismatchPaths = acc.nbMismatchPaths := by
  unfold kuboStatusBlock
  repeat' split
  all_goals rfl

@[simp] theorem spres_nbMismatchPaths_lassieStatusBlock (p : String) (r : ResultSet) (acc : StatusAcc) :
    (lassieStatusBlock p r acc).nbMismatchPaths = acc.nbMismatchPaths := by
  unfold lassieStatusBlock
  repeat' split
  all_goals rfl

@[simp] theorem spres_nbMismatchPaths_shimStatusBlock (p : String) (r : ResultSet) (acc : StatusAcc) :
    (shimStatusBlock p r acc).nbMismatchPaths = acc.nbMismatchPaths := by
  unfold shimStatusBlock
  repeat' split
  all_goals rfl

@[simp] theorem spres_nbMismatchPaths_bifrostStatusBlock (r : ResultSet) (acc : StatusAcc) :
    (bifrostStatusBlock r acc).nbMismatchPaths = acc.nbMismatchPaths := by
  unfold bifrostStatusBlock
  repeat' split
  all_goals rfl

@[simp] theorem spres_kubo2xx_lassieStatusBlock (p : String) (r : ResultSet) (acc : StatusAcc) :
    (lassieStatusBlock p r acc).kubo2xx = acc.kubo2xx := by
  unfold lassieStatusBlock
  repeat' split
  all_goals rfl

@[simp] theorem spres_kubo2xx_shimStatusBlock (p : String) (r : ResultSet) (acc : StatusAcc) :
    (shimStatusBlock p r acc).kubo2xx = acc.kubo2xx := by
  unfold shimStatusBlock
  repeat' split
  all_goals rfl

@[simp] theorem spres_kubo2xx_nginxStatusBlock (p : String) (r : ResultSet) (acc : StatusAcc) :
    (nginxStatusBlock p r acc).kubo2xx = acc.kubo2xx := by
  unfold nginxStatusBlock
  repeat' split
  all_goals rfl

@[simp] theorem spres_kubo2xx_bifrostStatusBlock (r : ResultSet) (acc : StatusAcc) :
    (bifrostStatusBlock r acc).kubo2xx = acc.kubo2xx := by
  unfold bifrostStatusBlock
  repeat' split
  all_goals rfl

@[simp] theorem spres_lassie2xx_kuboStatusBlock (p : String) (r : ResultSet) (acc : StatusAcc) :
    (kuboStatusBlock p r acc).lassie2xx = acc.lassie2xx := by
  unfold kuboStatusBlock
  repeat' split
  all_goals rfl

@[simp] theorem spres_lassie2xx_shimStatusBlock (p : String) (r : ResultSet) (acc : StatusAcc) :
    (shimStatusBlock p r acc).lassie2xx = acc.lassie2xx := by
  unfold shimStatusBlock
  repeat' split
  all_goals rfl

@[simp] theorem spres_lassie2xx_nginxStatusBlock (p : String) (r : ResultSet) (acc : StatusAcc) :
    (nginxStatusBlock p r acc).lassie2xx = acc.lassie2xx := by
  unfold nginxStatusBlock
  repeat' split
  all_goals rfl

@[simp] theorem spres_lassie2xx_bifrostStatusBlock (r : ResultSet) (acc : StatusAcc) :
    (bifrostStatusBlock r acc).lassie2xx = acc.lassie2xx := by
  unfold bifrostStatusBlock
  repeat' split
  all_goals rfl

@[simp] theorem spres_shim2xx_kuboStatusBlock (p : String) (r : ResultSet) (acc : StatusAcc) :
    (kuboStatusBlock p r acc).shim2xx = acc.shim2xx := by
  unfold kuboStatusBlock
  repeat' split
  all_goals rfl

@[simp] theorem spres_shim2xx_lassieStatusBlock (p : String) (r : ResultSet) (acc : StatusAcc) :
    (lassieStatusBlock p r acc).shim2xx = acc.shim2xx := by
  unfold lassieStatusBlock
  repeat' split
  all_goals rfl

@[simp] theorem spres_shim2xx_nginxStatusBlock (p : String) (r : ResultSet) (acc : StatusAcc) :
    (nginxStatusBlock p r acc).shim2xx = acc.shim2xx := by
  unfold nginxStatusBlock
  repeat' split
  all_goals rfl

@[simp] theorem spres_shim2xx_bifrostStatusBlock (r : ResultSet) (acc : StatusAcc) :
    (bifrostStatusBlock r acc).shim2xx = acc.shim2xx := by
  unfold bifrostStatusBlock
  repeat' split
  all_goals rfl

@[simp] theorem spres_nginx2xx_kuboStatusBlock (p : String) (r : ResultSet) (acc : StatusAcc) :
    (kuboStatusBlock p r acc).nginx2xx = acc.nginx2xx := by
  unfold kuboStatusBlock
  repeat' split
  all_goals rfl

@[simp] theorem spres_nginx2xx_lassieStatusBlock (p : String) (r : ResultSet) (acc : StatusAcc) :
    (lassieStatusBlock p r acc).nginx2xx = acc.nginx2xx := by
  unfold lassieStatusBlock
  repeat' split
  all_goals rfl

@[simp] theorem spres_nginx2xx_shimStatusBlock (p : String) (r : ResultSet) (acc : StatusAcc) :
    (shimStatusBlock p r acc).nginx2xx = acc.nginx2xx := by
  unfold shimStatusBlock
  repeat' split
  all_goals rfl

@[simp] theorem spres_nginx2xx_bifrostStatusBlock (r : ResultSet) (acc : StatusAcc) :
    (bifrostStatusBlock r acc).nginx2xx = acc.nginx2xx := by
  unfold bifrostStatusBlock
  repeat' split
  all_goals rfl

@[simp] theorem spres_bifrost2xx_kuboStatusBlock (p : String) (r : ResultSet) (acc : StatusAcc) :
    (kuboStatusBlock p r acc).bifrost2xx = acc.bifrost2xx := by
  unfold kuboStatusBlock
  repeat' split
  all_goals rfl

@[simp] theorem spres_bifrost2xx_lassieStatusBlock (p : String) (r : ResultSet) (acc : StatusAcc) :
    (lassieStatusBlock p r acc).bifrost2xx = acc.bifrost2xx := by
  unfold lassieStatusBlock
  repeat' split
  all_goals rfl

@[simp] theorem spres_bifrost2xx_shimStatusBlock (p : String) (r : ResultSet) (acc : StatusAcc) :
    (shimStatusBlock p r acc).bifrost2xx = acc.bifrost2xx := by
  unfold shimStatusBlock
  repeat' split
  all_goals rfl

@[simp] theorem spres_bifrost2xx_nginxStatusBlock (p : String) (r : ResultSet) (acc : StatusAcc) :
    (nginxStatusBlock p r acc).bifrost2xx = acc.bifrost2xx := by
  unfold nginxStatusBlock
  repeat' split
  all_goals rfl

/-!
Behavior lemmas: what each consistency-engine step does to its own fields
under each guard outcome.
-/

theorem lassieReadStep_errCount (p : String) (rs : ResultSet)
    (rbm : ResponseBytesMismatch)
    (h200 : rs.lassieResult.statusCode = 200)
    (herr : rs.lassieResult.responseBodyReadError ≠ "") :
    (lassieReadStep p rs rbm).totalLassieReadError = rbm.totalLassieReadError + 1 := by
  unfold lassieReadStep
  rw [if_pos h200, if_neg herr]

theorem l1ShimReadStep_errCount (p : String) (rs : ResultSet)
    (rbm : ResponseBytesMismatch)
    (h200 : rs.l1ShimResult.statusCode = 200)
    (herr : rs.l1ShimResult.responseBodyReadError ≠ "") :
    (l1ShimReadStep p rs rbm).totalL1ShimReadError = rbm.totalL1ShimReadError + 1 := by
  unfold l1ShimReadStep
  rw [if_pos h200, if_neg herr]

theorem l1NginxReadStep_errCount (p : String) (rs : ResultSet)
    (rbm : ResponseBytesMismatch)
    (h200 : rs.l1NginxResult.statusCode = 200)
    (herr : rs.l1NginxResult.responseBodyReadError ≠ "") :
    (l1NginxReadStep p rs rbm).totalL1NginxReadError = rbm.totalL1NginxReadError + 1 := by
  unfold l1NginxReadStep
  rw [if_pos h200, if_neg herr]

theorem bifrostReadStep_errCount (p : String) (rs : ResultSet)
    (rbm : ResponseBytesMismatch)
    (h200 : rs.bifrostResult.statusCode = 200)
    (herr : rs.bifrostResult.responseBodyReadError ≠ "") :
    (bifrostReadStep p rs rbm).totalBifrostReadError = rbm.totalBifrostReadError + 1 := by
  unfold bifrostReadStep
  rw [if_pos h200, if_neg herr]

theorem kuboLassiePair_skip (p : String) (ex : String → Except String String)
    (rs : ResultSet) (a b : String) (rbm : ResponseBytesMismatch)
    (h : ¬(rs.kuboGWResult.statusCode = 200 ∧ rs.lassieResult.statusCode = 200 ∧
      rs.kuboGWResult.responseBodyReadError = "" ∧
      rs.lassieResult.responseBodyReadError = "")) :
    kuboLassiePair p ex rs a b rbm = rbm := by
  unfold kuboLassiePair
  rw [if_neg h]

theorem kuboLassiePair_err (p : String) (ex : String → Except String String)
    (rs : ResultSet) (a b : String) (rbm : ResponseBytesMismatch)
    (e : String) (hex : ex b = .error e) :
    kuboLassiePair p ex rs a b rbm = rbm := by
  unfold kuboLassiePair
  split
  · rw [hex]
  · rfl

theorem kuboLassiePair_mism (p : String) (ex : String → Except String String)
    (rs : ResultSet) (a b : String) (rbm : ResponseBytesMismatch)
    (hg : rs.kuboGWResult.statusCode = 200 ∧ rs.lassieResult.statusCode = 200 ∧
      rs.kuboGWResult.responseBodyReadError = "" ∧
      rs.lassieResult.responseBodyReadError = "")
    (raw : String) (hex : ex b = .ok raw) (hne : a ≠ raw) :
    kuboLassiePair p ex rs a b rbm =
      { rbm with
        kuboLassieMismatches :=
          (p, { kuboGWResult := some rs.kuboGWResult,
                lassieResult := some rs.lassieResult : Results })
            :: rbm.kuboLassieMismatches
        kuboLassieMismatchPaths := rbm.kuboLassieMismatchPaths ++ [p] } := by
  unfold kuboLassiePair
  rw [if_pos hg, hex]
  dsimp only
  rw [if_pos hne]

theorem kuboLassiePair_match (p : String) (ex : String → Except String String)
    (rs : ResultSet) (a b : String) (rbm : ResponseBytesMismatch)
    (hg : rs.kuboGWResult.statusCode = 200 ∧ rs.lassieResult.statusCode = 200 ∧
      rs.kuboGWResult.responseBodyReadError = "" ∧
      rs.lassieResult.responseBodyReadError = "")
    (raw : String) (hex : ex b = .ok raw) (heq : a = raw) :
    kuboLassiePair p ex rs a b rbm =
      { rbm with totalKuboLassieMatches := rbm.totalKuboLassieMatches + 1 } := by
  unfold kuboLassiePair
  rw [if_pos hg, hex]
  dsimp only
  rw [if_neg (not_not_intro heq)]

theorem kuboL1ShimPair_skip (p : String) (ex : String → Except String String)
    (rs : ResultSet) (a b : String) (rbm : ResponseBytesMismatch)
    (h : ¬(rs.kuboGWResult.statusCode = 200 ∧ rs.l1ShimResult.statusCode = 200 ∧
      rs.kuboGWResult.responseBodyReadError = "" ∧
      rs.l1ShimResult.responseBodyReadError = "")) :
    kuboL1ShimPair p ex rs a b rbm = rbm := by
  unfold kuboL1ShimPair
  rw [if_neg h]

theorem kuboL1ShimPair_err (p : String) (ex : String → Except String String)
    (rs : ResultSet) (a b : String) (rbm : ResponseBytesMismatch)
    (e : String) (hex : ex b = .error e) :
    kuboL1ShimPair p ex rs a b rbm = rbm := by
  unfold kuboL1ShimPair
  split
  · rw [hex]
  · rfl

theorem kuboL1ShimPair_empty (p : String) (ex : String → Except String String)
    (rs : ResultSet) (a b : String) (rbm : ResponseBytesMismatch)
    (raw : String) (hex : ex b = .ok raw) (hlen : ¬raw.length > 0) :
    kuboL1ShimPair p ex rs a b rbm = rbm := by
  unfold kuboL1ShimPair
  split
  · rw [hex]
    dsimp only
    rw [if_neg hlen]
  · rfl

theorem kuboL1ShimPair_mism (p : String) (ex : String → Except String String)
    (rs : ResultSet) (a b : String) (rbm : ResponseBytesMismatch)
    (hg : rs.kuboGWResult.statusCode = 200 ∧ rs.l1ShimResult.statusCode = 200 ∧
      rs.kuboGWResult.responseBodyReadError = "" ∧
      rs.l1ShimResult.responseBodyReadError = "")
    (raw : String) (hex : ex b = .ok raw) (hlen : raw.length > 0) (hne : a ≠ raw) :
    kuboL1ShimPair p ex rs a b rbm =
      { rbm with
        kuboL1ShimMismatches :=
          (p, { kuboGWResult := some rs.kuboGWResult,
                l1ShimResult := some rs.l1ShimResult : Results })
            :: rbm.kuboL1ShimMismatches
        kuboL1ShimMismatchPaths := rbm.kuboL1ShimMismatchPaths ++ [p] } := by
  unfold kuboL1ShimPair
  rw [if_pos hg, hex]
  dsimp only
  rw [if_pos hlen, if_pos hne]

theorem kuboL1ShimPair_match (p : String) (ex : String → Except String String)
    (rs : ResultSet) (a b : String) (rbm : ResponseBytesMismatch)
    (hg : rs.kuboGWResult.statusCode = 200 ∧ rs.l1ShimResult.statusCode = 200 ∧
      rs.kuboGWResult.responseBodyReadError = "" ∧
      rs.l1ShimResult.responseBodyReadError = "")
    (raw : String) (hex : ex b = .ok raw) (hlen : raw.length > 0) (heq : a = raw) :
    kuboL1ShimPair p ex rs a b rbm =
      { rbm with totalKuboL1ShimMatches := rbm.totalKuboL1ShimMatches + 1 } := by
  unfold kuboL1ShimPair
  rw [if_pos hg, hex]
  dsimp only
  rw [if_pos hlen, if_neg (not_not_intro heq)]

theorem kuboL1NginxPair_skip (p : String) (ex : String → Except String String)
    (rs : ResultSet) (a b : String) (rbm : ResponseBytesMismatch)
    (h : ¬(rs.kuboGWResult.statusCode = 200 ∧ rs.l1NginxResult.statusCode = 200 ∧
      rs.kuboGWResult.responseBodyReadError = "" ∧
      rs.l1NginxResult.responseBodyReadError = "")) :
    kuboL1NginxPair p ex rs a b rbm = rbm := by
  unfold kuboL1NginxPair
  rw [if_neg h]

theorem kuboL1NginxPair_err (p : String) (ex : String → Except String String)
    (rs : ResultSet) (a b : String) (rbm : ResponseBytesMismatch)
    (e : String) (hex : ex b = .error e) :
    kuboL1NginxPair p ex rs a b rbm = rbm := by
  unfold kuboL1NginxPair
  split
  · rw [hex]
  · rfl

theorem kuboL1NginxPair_mism (p : String) (ex : String → Except String String)
    (rs : ResultSet) (a b : String) (rbm : ResponseBytesMismatch)
    (hg : rs.kuboGWResult.statusCode = 200 ∧ rs.l1NginxResult.statusCode = 200 ∧
      rs.kuboGWResult.responseBodyReadError = "" ∧
      rs.l1NginxResult.responseBodyReadError = "")
    (raw : String) (hex : ex b = .ok raw) (hne : a ≠ raw) :
    kuboL1NginxPair p ex rs a b rbm =
      { rbm with
        kuboL1NginxMismatches :=
          (p, { kuboGWResult := some rs.kuboGWResult,
                l1NginxResult := some rs.l1NginxResult : Results })
            :: rbm.kuboL1NginxMismatches
        kuboL1NginxMismatchPaths := rbm.kuboL1NginxMismatchPaths ++ [p] } := by
  unfold kuboL1NginxPair
  rw [if_pos hg, hex]
  dsimp only
  rw [if_pos hne]

theorem kuboL1NginxPair_match (p : String) (ex : String → Except String String)
    (rs : ResultSet) (a b : String) (rbm : ResponseBytesMismatch)
    (hg : rs.kuboGWResult.statusCode = 200 ∧ rs.l1NginxResult.statusCode = 200 ∧
      rs.kuboGWResult.responseBodyReadError = "" ∧
      rs.l1NginxResult.responseBodyReadError = "")
    (raw : String) (hex : ex b = .ok raw) (heq : a = raw) :
    kuboL1NginxPair p ex rs a b rbm =
      { rbm with totalKuboL1NginxMatches := rbm.totalKuboL1NginxMatches + 1 } := by
  unfold kuboL1NginxPair
  rw [if_pos hg, hex]
  dsimp only
  rw [if_neg (not_not_intro heq)]

theorem kuboBifrostPair_skip (p : String) (rs : ResultSet)
    (a b : String) (rbm : ResponseBytesMismatch)
    (h : ¬(rs.kuboGWResult.statusCode = 200 ∧ rs.bifrostResult.statusCode = 200 ∧
      rs.kuboGWResult.responseBodyReadError = "" ∧
      rs.bifrostResult.responseBodyReadError = "")) :
    kuboBifrostPair p rs a b rbm = rbm := by
  unfold kuboBifrostPair
  rw [if_neg h]

theorem kuboBifrostPair_mism (p : String) (rs : ResultSet)
    (a b : String) (rbm : ResponseBytesMismatch)
    (hg : rs.kuboGWResult.statusCode = 200 ∧ rs.bifrostResult.statusCode = 200 ∧
      rs.kuboGWResult.responseBodyReadError = "" ∧
      rs.bifrostResult.responseBodyReadError = "")
    (hne : a ≠ b) :
    kuboBifrostPair p rs a b rbm =
      { rbm with
        kuboBifrostMismatches :=
          (p, { kuboGWResult := some rs.kuboGWResult,
                bifrostResult := some rs.bifrostResult : Results })
            :: rbm.kuboBifrostMismatches
        kuboBifrostMismatchPaths := rbm.kuboBifrostMismatchPaths ++ [p] } := by
  unfold kuboBifrostPair
  rw [if_pos hg, if_pos hne]

theorem kuboBifrostPair_match (p : String) (rs : ResultSet)
    (a b : String) (rbm : ResponseBytesMismatch)
    (hg : rs.kuboGWResult.statusCode = 200 ∧ rs.bifrostResult.statusCode = 200 ∧
      rs.kuboGWResult.responseBodyReadError = "" ∧
      rs.bifrostResult.responseBodyReadError = "")
    (heq : a = b) :
    kuboBifrostPair p rs a b rbm =
      { rbm with totalKuboBifrostMatches := rbm.totalKuboBifrostMatches + 1 } := by
  unfold kuboBifrostPair
  rw [if_pos hg, if_neg (not_not_intro heq)]

theorem lassieShimPair_skip (p : String) (rs : ResultSet)
    (a b : String) (rbm : ResponseBytesMismatch)
    (h : ¬(rs.lassieResult.statusCode = 200 ∧ rs.l1ShimResult.statusCode = 200 ∧
      rs.lassieResult.responseBodyReadError = "" ∧
      rs.l1ShimResult.responseBodyReadError = "")) :
    lassieShimPair p rs a b rbm = rbm := by
  unfold lassieShimPair
  rw [if_neg h]

theorem lassieShimPair_mism (p : String) (rs : ResultSet)
    (a b : String) (rbm : ResponseBytesMismatch)
    (hg : rs.lassieResult.statusCode = 200 ∧ rs.l1ShimResult.statusCode = 200 ∧
      rs.lassieResult.responseBodyReadError = "" ∧
      rs.l1ShimResult.responseBodyReadError = "")
    (hne : a ≠ b) :
    lassieShimPair p rs a b rbm =
      { rbm with
        lassieShimMismatches :=
          (p, { lassieResult := some rs.lassieResult,
                l1ShimResult := some rs.l1ShimResult : Results })
            :: rbm.lassieShimMismatches
        lassieShimMismatchPaths := rbm.lassieShimMismatchPaths ++ [p] } := by
  unfold lassieShimPair
  rw [if_pos hg, if_pos hne]

theorem lassieShimPair_eq (p : String) (rs : ResultSet)
    (a b : String) (rbm : ResponseBytesMismatch)
    (heq : a = b) :
    lassieShimPair p rs a b rbm = rbm := by
  unfold lassieShimPair
  split
  · rw [if_neg (not_not_intro heq)]
  · rfl

theorem shimNginxPair_skip (p : String) (rs : ResultSet)
    (a b : String) (rbm : ResponseBytesMismatch)
    (h : ¬(rs.l1ShimResult.statusCode = 200 ∧ rs.l1NginxResult.statusCode = 200 ∧
      rs.l1ShimResult.responseBodyReadError = "" ∧
      rs.l1NginxResult.responseBodyReadError = "")) :
    shimNginxPair p rs a b rbm = rbm := by
  unfold shimNginxPair
  rw [if_neg h]

theorem shimNginxPair_mism (p : String) (rs : ResultSet)
    (a b : String) (rbm : ResponseBytesMismatch)
    (hg : rs.l1ShimResult.statusCode = 200 ∧ rs.l1NginxResult.statusCode = 200 ∧
      rs.l1ShimResult.responseBodyReadError = "" ∧
      rs.l1NginxResult.responseBodyReadError = "")
    (hne : a ≠ b) :
    shimNginxPair p rs a b rbm =
      { rbm with
        shimNginxMismatches :=
          (p, { l1ShimResult := some rs.l1ShimResult,
                l1NginxResult := some rs.l1NginxResult : Results })
            :: rbm.shimNginxMismatches
        shimNginxMismatchPaths := rbm.shimNginxMismatchPaths ++ [p] } := by
  unfold shimNginxPair
  rw [if_pos hg, if_pos hne]

theorem shimNginxPair_eq (p : String) (rs : ResultSet)
    (a b : String) (rbm : ResponseBytesMismatch)
    (heq : a = b) :
    shimNginxPair p rs a b rbm = rbm := by
  unfold shimNginxPair
  split
  · rw [if_neg (not_not_intro heq)]
  · rfl

theorem kuboStatusBlock_kl (p : String) (r : ResultSet) (acc : StatusAcc) :
    (kuboStatusBlock p r acc).kuboLassieMismatch =
      if (r.kuboGWResult.statusCode = 200 ∧ r.kuboGWResult.responseBodyReadError = "") ∧
          (r.lassieResult.statusCode ≠ 200 ∨ r.lassieResult.responseBodyReadError ≠ "") then
        (p, { kuboGWResult := some r.kuboGWResult,
              lassieResult := some r.lassieResult : Results }) :: acc.kuboLassieMismatch
      else acc.kuboLassieMismatch := by
  unfold kuboStatusBlock
  repeat' split
  all_goals simp_all

theorem kuboStatusBlock_kb (p : String) (r : ResultSet) (acc : StatusAcc) :
    (kuboStatusBlock p r acc).kuboBifrostMismatch =
      if (r.kuboGWResult.statusCode = 200 ∧ r.kuboGWResult.responseBodyReadError = "") ∧
          (r.bifrostResult.statusCode ≠ 200 ∨ r.bifrostResult.responseBodyReadError ≠ "") then
        (p, { kuboGWResult := some r.kuboGWResult,
              bifrostResult := some r.bifrostResult : Results }) :: acc.kuboBifrostMismatch
      else acc.kuboBifrostMismatch := by
  unfold kuboStatusBlock
  repeat' split
  all_goals simp_all

theorem lassieStatusBlock_ls (p : String) (r : ResultSet) (acc : StatusAcc) :
    (lassieStatusBlock p r acc).lassieShimMismatch =
      if (r.lassieResult.statusCode = 200 ∧ r.lassieResult.responseBodyReadError = "") ∧
          (r.l1ShimResult.statusCode ≠ 200 ∨ r.l1ShimResult.responseBodyReadError ≠ "") then
        (p, { lassieResult := some r.lassieResult,
              l1ShimResult := some r.l1ShimResult : Results }) :: acc.lassieShimMismatch
      else acc.lassieShimMismatch := by
  unfold lassieStatusBlock
  repeat' split
  all_goals simp_all

theorem shimStatusBlock_sn (p : String) (r : ResultSet) (acc : StatusAcc) :
    (shimStatusBlock p r acc).shimNginxMismatch =
      if (r.l1ShimResult.statusCode = 200 ∧ r.l1ShimResult.responseBodyReadError = "") ∧
          (r.l1NginxResult.statusCode ≠ 200 ∨ r.l1NginxResult.responseBodyReadError ≠ "") then
        (p, { l1ShimResult := some r.l1ShimResult,
              l1NginxResult := some r.l1NginxResult : Results }) :: acc.shimNginxMismatch
      else acc.shimNginxMismatch := by
  unfold shimStatusBlock
  repeat' split
  all_goals simp_all

theorem nginxStatusBlock_nb (p : String) (r : ResultSet) (acc : StatusAcc) :
    (nginxStatusBlock p r acc).nginxBifrostMismatch =
      if (r.l1NginxResult.statusCode = 200 ∧ r.l1NginxResult.responseBodyReadError = "") ∧
          (r.bifrostResult.statusCode ≠ 200 ∨ r.bifrostResult.responseBodyReadError ≠ "") then
        (p, { l1NginxResult := some r.l1NginxResult,
              bifrostResult := some r.bifrostResult : Results }) :: acc.nginxBifrostMismatch
      else acc.nginxBifrostMismatch := by
  unfold nginxStatusBlock
  repeat' split
  all_goals simp_all

/-!
Concurrency model of one `executeRequest` call.  The five layer goroutines
run in any interleaving; each one first sets its slot of the shared
`Results` entry (a mutation under `re.mu`, hence an atomic step here) and
then performs its deferred `wg.Done`.  The consistency evaluation is a
single atomic step (it runs entirely under `re.mu`) that is enabled only
once `wg.Wait` has observed all five `Done`s, mirroring the join in the
source.
-/

/-- Progress of one layer goroutine: not yet run, slot written, or
`wg.Done` performed. -/
inductive TaskPhase where
  | pending
  | written
  | done
deriving Repr, DecidableEq

/-- One path's in-flight state: the shared `Results` entry (five slots,
all initially nil), the five goroutines' phases, and the consistency
outcome once the post-join evaluation has run. -/
structure PathRunState where
  store : Results
  kuboPhase : TaskPhase
  lassiePhase : TaskPhase
  shimPhase : TaskPhase
  nginxPhase : TaskPhase
  bifrostPhase : TaskPhase
  evald : Option ResponseBytesMismatch
deriving Repr, DecidableEq

/-- Initial state of one `executeRequest` call: empty `Results` entry, no
goroutine has run, no evaluation. -/
def pathInit : PathRunState :=
  { store := {}
    kuboPhase := .pending
    lassiePhase := .pending
    shimPhase := .pending
    nginxPhase := .pending
    bifrostPhase := .pending
    evald := none }

/-- Interleaved small steps of one `executeRequest` call.  Write steps set
one layer's slot with that layer's stored result; done steps model
`wg.Done` (only after the write, per program order); the eval step models
the post-`wg.Wait` consistency evaluation and requires every layer to be
done and every slot to be set. -/
inductive PathStep (urls : URLsToTest) (o : PathOutcomes)
    (extract : String → Except String String) (rbm0 : ResponseBytesMismatch) :
    PathRunState → PathRunState → Prop where
  | writeKubo (s : PathRunState) : s.kuboPhase = .pending →
      PathStep urls o extract rbm0 s
        { s with
          store := { s.store with
            kuboGWResult := some (storedResult urls.kuboGWUrl o.kubo) }
          kuboPhase := .written }
  | doneKubo (s : PathRunState) : s.kuboPhase = .written →
      PathStep urls o extract rbm0 s { s with kuboPhase := .done }
  | writeLassie (s : PathRunState) : s.lassiePhase = .pending →
      PathStep urls o extract rbm0 s
        { s with
          store := { s.store with
            lassieResult := some (storedResult urls.lassie o.lassie) }
          lassiePhase := .written }
  | doneLassie (s : PathRunState) : s.lassiePhase = .written →
      PathStep urls o extract rbm0 s { s with lassiePhase := .done }
  | writeShim (s : PathRunState) : s.shimPhase = .pending →
      PathStep urls o extract rbm0 s
        { s with
          store := { s.store with
            l1ShimResult := some (storedResult urls.l1Shim o.l1shim) }
          shimPhase := .written }
  | doneShim (s : PathRunState) : s.shimPhase = .written →
      PathStep urls o extract rbm0 s { s with shimPhase := .done }
  | writeNginx (s : PathRunState) : s.nginxPhase = .pending →
      PathStep urls o extract rbm0 s
        { s with
          store := { s.store with
            l1NginxResult := some (storedResult urls.l1Nginx o.l1nginx) }
          nginxPhase := .written }
  | doneNginx (s : PathRunState) : s.nginxPhase = .written →
      PathStep urls o extract rbm0 s { s with nginxPhase := .done }
  | writeBifrost (s : PathRunState) : s.bifrostPhase = .pending →
      PathStep urls o extract rbm0 s
        { s with
          store := { s.store with
            bifrostResult := some (storedResult urls.bifrostURL o.bifrost) }
          bifrostPhase := .written }
  | doneBifrost (s : PathRunState) : s.bifrostPhase = .written →
      PathStep urls o extract rbm0 s { s with bifrostPhase := .done }
  | eval (s : PathRunState) (k l sh n b : Result) :
      s.kuboPhase = .done → s.lassiePhase = .done → s.shimPhase = .done →
      s.nginxPhase = .done → s.bifrostPhase = .done →
      s.store.kuboGWResult = some k → s.store.lassieResult = some l →
      s.store.l1ShimResult = some sh → s.store.l1NginxResult = some n →
      s.store.bifrostResult = some b →
      s.evald = none →
      PathStep urls o extract rbm0 s
        { s with
          evald := some (evalConsistency urls.path extract
            { kuboGWResult := k, lassieResult := l, l1ShimResult := sh,
              l1NginxResult := n, bifrostResult := b }
            (localBytes urls.kuboGWUrl o.kubo)
            (localBytes urls.lassie o.lassie)
            (localBytes urls.l1Shim o.l1shim)
            (localBytes urls.l1Nginx o.l1nginx)
            (localBytes urls.bifrostURL o.bifrost)
            rbm0) }

/-- States of one `executeRequest` call reachable from `pathInit` under any
interleaving. -/
inductive PathReachable (urls : URLsToTest) (o : PathOutcomes)
    (extract : String → Except String String) (rbm0 : ResponseBytesMismatch) :
    PathRunState → Prop where
  | init : PathReachable urls o extract rbm0 pathInit
  | step {s s' : PathRunState} :
      PathReachable urls o extract rbm0 s →
      PathStep urls o extract rbm0 s s' →
      PathReachable urls o extract rbm0 s'

/-- Invariant of one `executeRequest` call: once a layer goroutine has
passed its write, its slot holds exactly that layer's stored result; and
any recorded evaluation is the evaluation of the complete result set. -/
def pathInv (urls : URLsToTest) (o : PathOutcomes)
    (extract : String → Except String String) (rbm0 : ResponseBytesMismatch)
    (s : PathRunState) : Prop :=
  (s.kuboPhase ≠ .pending →
    s.store.kuboGWResult = some (storedResult urls.kuboGWUrl o.kubo)) ∧
  (s.lassiePhase ≠ .pending →
    s.store.lassieResult = some (storedResult urls.lassie o.lassie)) ∧
  (s.shimPhase ≠ .pending →
    s.store.l1ShimResult = some (storedResult urls.l1Shim o.l1shim)) ∧
  (s.nginxPhase ≠ .pending →
    s.store.l1NginxResult = some (storedResult urls.l1Nginx o.l1nginx)) ∧
  (s.bifrostPhase ≠ .pending →
    s.store.bifrostResult = some (storedResult urls.bifrostURL o.bifrost)) ∧
  (∀ x, s.evald = some x →
    x = evalConsistency urls.path extract (gatherResultSet urls o)
      (localBytes urls.kuboGWUrl o.kubo)
      (localBytes urls.lassie o.lassie)
      (localBytes urls.l1Shim o.l1shim)
      (localBytes urls.l1Nginx o.l1nginx)
      (localBytes urls.bifrostURL o.bifrost)
      rbm0)

theorem pathInv_holds (urls : URLsToTest) (o : PathOutcomes)
    (extract : String → Except String String) (rbm0 : ResponseBytesMismatch)
    (s : PathRunState) (h : PathReachable urls o extract rbm0 s) :
    pathInv urls o extract rbm0 s := by
  induction h with
  | init => simp [pathInv, pathInit]
  | step hr hs ih =>
    cases hs with
    | eval k l sh n b hk hl hsh hn hb hsk hsl hssh hsn hsb hev =>
      obtain ⟨i1, i2, i3, i4, i5, _⟩ := ih
      have ek : k = storedResult urls.kuboGWUrl o.kubo := by
        have := i1 (by simp [hk]); rw [hsk] at this; exact Option.some_inj.mp this
      have el : l = storedResult urls.lassie o.lassie := by
        have := i2 (by simp [hl]); rw [hsl] at this; exact Option.some_inj.mp this
      have esh : sh = storedResult urls.l1Shim o.l1shim := by
        have := i3 (by simp [hsh]); rw [hssh] at this; exact Option.some_inj.mp this
      have en : n = storedResult urls.l1Nginx o.l1nginx := by
        have := i4 (by simp [hn]); rw [hsn] at this; exact Option.some_inj.mp this
      have eb : b = storedResult urls.bifrostURL o.bifrost := by
        have := i5 (by simp [hb]); rw [hsb] at this; exact Option.some_inj.mp this
      refine ⟨fun _ => by simpa using i1 (by simp [hk]),
              fun _ => by simpa using i2 (by simp [hl]),
              fun _ => by simpa using i3 (by simp [hsh]),
              fun _ => by simpa using i4 (by simp [hn]),
              fun _ => by simpa using i5 (by simp [hb]),
              fun x hx => ?_⟩
      simp only [Option.some_inj] at hx
      subst ek el esh en eb
      rw [← hx]
      rfl
    | writeKubo hp =>
      obtain ⟨i1, i2, i3, i4, i5, i6⟩ := ih
      exact ⟨fun _ => rfl, fun hh => i2 hh, fun hh => i3 hh, fun hh => i4 hh,
             fun hh => i5 hh, fun x hx => i6 x hx⟩
    | doneKubo hp =>
      obtain ⟨i1, i2, i3, i4, i5, i6⟩ := ih
      exact ⟨fun _ => i1 (by simp [hp]), i2, i3, i4, i5, i6⟩
    | writeLassie hp =>
      obtain ⟨i1, i2, i3, i4, i5, i6⟩ := ih
      exact ⟨fun hh => i1 hh, fun _ => rfl, fun hh => i3 hh, fun hh => i4 hh,
             fun hh => i5 hh, fun x hx => i6 x hx⟩
    | doneLassie hp =>
      obtain ⟨i1, i2, i3, i4, i5, i6⟩ := ih
      exact ⟨i1, fun _ => i2 (by simp [hp]), i3, i4, i5, i6⟩
    | writeShim hp =>
      obtain ⟨i1, i2, i3, i4, i5, i6⟩ := ih
      exact ⟨fun hh => i1 hh, fun hh => i2 hh, fun _ => rfl, fun hh => i4 hh,
             fun hh => i5 hh, fun x hx => i6 x hx⟩
    | doneShim hp =>
      obtain ⟨i1, i2, i3, i4, i5, i6⟩ := ih
      exact ⟨i1, i2, fun _ => i3 (by simp [hp]), i4, i5, i6⟩
    | writeNginx hp =>
      obtain ⟨i1, i2, i3, i4, i5, i6⟩ := ih
      exact ⟨fun hh => i1 hh, fun hh => i2 hh, fun hh => i3 hh, fun _ => rfl,
             fun hh => i5 hh, fun x hx => i6 x hx⟩
    | doneNginx hp =>
      obtain ⟨i1, i2, i3, i4, i5, i6⟩ := ih
      exact ⟨i1, i2, i3, fun _ => i4 (by simp [hp]), i5, i6⟩
    | writeBifrost hp =>
      obtain ⟨i1, i2, i3, i4, i5, i6⟩ := ih
      exact ⟨fun hh => i1 hh, fun hh => i2 hh, fun hh => i3 hh, fun hh => i4 hh,
             fun _ => rfl, fun x hx => i6 x hx⟩
    | doneBifrost hp =>
      obtain ⟨i1, i2, i3, i4, i5, i6⟩ := ih
      exact ⟨i1, i2, i3, i4, fun _ => i5 (by simp [hp]), i6⟩

/-!
Run-level concurrency model of `Execute`.  The dispatch loop acquires a
semaphore slot before spawning each path goroutine, so a path task
starts only when one of the `defaultConcurrency` semaphore slots is free;
the task immediately fans out one call per layer (five), each call
completes independently, and the task gives its slot back only after all
of its layer calls have returned (`wg.Wait` inside `executeRequest`, then
the deferred `<-sem`).
-/

/-- Mirror of `defaultConcurrency` (request_executor.go): capacity of the
dispatch semaphore. -/
def defaultConcurrency : Nat := 6

/-- Layers called per logical request: Kubo GW, Bifrost, Lassie, L1 Shim,
L1 Nginx. -/
def layersPerRequest : Nat := 5

/-- Run-level state of `Execute`: how many logical requests have not yet
started, and, for each path task currently holding a semaphore slot, how
many of its layer calls are still in flight. -/
structure ExecState where
  waiting : Nat
  running : List Nat
deriving Repr, DecidableEq

/-- Total network calls in flight across all running path tasks. -/
def inFlightCalls (s : ExecState) : Nat := s.running.sum

/-- Interleaved steps of the `Execute` dispatch loop and its path tasks:
start a task when a semaphore slot is free (it fans out `layersPerRequest`
calls at once), complete one in-flight call of some task, or release the
slot of a task whose calls have all returned. -/
inductive ExecStep (limit : Nat) : ExecState → ExecState → Prop where
  | start (s : ExecState) : 0 < s.waiting → s.running.length < limit →
      ExecStep limit s
        { waiting := s.waiting - 1, running := layersPerRequest :: s.running }
  | callDone (s : ExecState) (l r : List Nat) (c : Nat) :
      s.running = l ++ (c + 1) :: r →
      ExecStep limit s { s with running := l ++ c :: r }
  | finish (s : ExecState) (l r : List Nat) : s.running = l ++ 0 :: r →
      ExecStep limit s { s with running := l ++ r }

/-- Run-level states reachable from the start of `Execute` over `n`
logical requests. -/
inductive ExecReachable (limit n : Nat) : ExecState → Prop where
  | init : ExecReachable limit n { waiting := n, running := [] }
  | step {s s' : ExecState} : ExecReachable limit n s →
      ExecStep limit s s' → ExecReachable limit n s'

/-- Invariant of `Execute`: at most `limit` path tasks hold a semaphore
slot, and each holds at most `layersPerRequest` calls in flight. -/
theorem execInv (limit n : Nat) (s : ExecState)
    (h : ExecReachable limit n s) :
    s.running.length ≤ limit ∧ ∀ c ∈ s.running, c ≤ layersPerRequest := by
  induction h with
  | init => simp
  | step hr hs ih =>
    obtain ⟨ihl, ihm⟩ := ih
    cases hs with
    | start hw hl =>
      refine ⟨hl, ?_⟩
      intro c hc
      rcases List.mem_cons.mp hc with hc | hc
      · omega
      · exact ihm c hc
    | callDone l r c hrun =>
      rw [hrun] at ihl ihm
      constructor
      · simpa using ihl
      · intro d hd
        rcases List.mem_append.mp hd with hd | hd
        · exact ihm d (List.mem_append.mpr (.inl hd))
        · rcases List.mem_cons.mp hd with hd | hd
          · have := ihm (c + 1) (List.mem_append.mpr (.inr (List.mem_cons_self _ _)))
            omega
          · exact ihm d (List.mem_append.mpr (.inr (List.mem_cons_of_mem _ hd)))
    | finish l r hrun =>
      rw [hrun] at ihl ihm
      constructor
      · simp at ihl ⊢
        omega
      · intro d hd
        rcases List.mem_append.mp hd with hd | hd
        · exact ihm d (List.mem_append.mpr (.inl hd))
        · exact ihm d (List.mem_append.mpr (.inr (List.mem_cons_of_mem _ hd)))

/-- C6: every dispatched call produces exactly one `Result`, failure
included.  A transport failure yields status 0 together with a non-empty
error string; a non-success HTTP status yields a result whose error body
is the response text when that text is readable (and the read-error text
otherwise); a 200 captures the body and its size, or the read error.
`executeHTTPRequest` is a total function of the call outcome invoked once
per dispatch, so no per-call error escapes or retries. -/
theorem c6_every_call_one_result (url msg : String) (status : Nat)
    (hdrs : List (String × List String)) (body e : String) :
    ((executeHTTPRequest url (.transportError msg)).statusCode = 0 ∧
      (executeHTTPRequest url (.transportError msg)).errorBody =
        "error sending request: " ++ msg) ∧
    (status ≠ 200 →
      executeHTTPRequest url (.response status hdrs (.ok body)) =
        { url := url, headers := hdrs, statusCode := status, errorBody := body }) ∧
    (status ≠ 200 →
      executeHTTPRequest url (.response status hdrs (.error e)) =
        { url := url, headers := hdrs, statusCode := status,
          errorBody := "error reading response body: " ++ e }) ∧
    (executeHTTPRequest url (.response 200 hdrs (.ok body)) =
      { url := url, headers := hdrs, statusCode := 200,
        responseBody := some body, responseSize := body.length }) ∧
    (executeHTTPRequest url (.response 200 hdrs (.error e)) =
      { url := url, headers := hdrs, statusCode := 200,
        responseBodyReadError := "error reading response body: " ++ e }) := by
  refine ⟨⟨rfl, rfl⟩, fun h => ?_, fun h => ?_, rfl, rfl⟩
  · unfold executeHTTPRequest
    dsimp only
    rw [if_neg h]
  · unfold executeHTTPRequest
    dsimp only
    rw [if_neg h]

theorem c6_every_call_one_result_witness :
    (executeHTTPRequest "u" (.response 502 [] (.ok "bad gateway")) =
      { url := "u", headers := [], statusCode := 502, errorBody := "bad gateway" }) ∧
    (executeHTTPRequest "u" (.transportError "refused")).statusCode = 0 :=
  ⟨(c6_every_call_one_result "u" "refused" 502 [] "bad gateway" "e").2.1 (by decide),
   (c6_every_call_one_result "u" "refused" 502 [] "bad gateway" "e").1.1⟩

/-- C10: every `Result` stored in the result store has a nil body — the
raw bytes survive only in the goroutines' path-local variables — while the
recorded size still equals the length of the body that was read, so the
persisted results file carries no response body bytes. -/
theorem c10_stored_bodies_nil (urls : URLsToTest) (o : PathOutcomes)
    (extract : String → Except String String) (rbm : ResponseBytesMismatch) :
    (∀ url oc, (storedResult url oc).responseBody = none) ∧
    (∀ url hdrs body, (storedResult url
        (.response 200 hdrs (.ok body))).responseSize = body.length) ∧
    ((executeRequestModel urls o extract rbm).1 =
      { kuboGWResult := some (storedResult urls.kuboGWUrl o.kubo)
        lassieResult := some (storedResult urls.lassie o.lassie)
        l1ShimResult := some (storedResult urls.l1Shim o.l1shim)
        l1NginxResult := some (storedResult urls.l1Nginx o.l1nginx)
        bifrostResult := some (storedResult urls.bifrostURL o.bifrost) }) :=
  ⟨fun _ _ => rfl, fun _ _ _ => rfl, rfl⟩

/-- C8: in any reachable state of a run, the calls in flight never exceed
the semaphore capacity times the layers per request, because at most
`defaultConcurrency` path tasks hold slots and each fans out at most one
call per layer. -/
theorem c8_inflight_bound (n : Nat) (s : ExecState)
    (h : ExecReachable defaultConcurrency n s) :
    inFlightCalls s ≤ defaultConcurrency * layersPerRequest ∧
    s.running.length ≤ defaultConcurrency := by
  obtain ⟨hl, hm⟩ := execInv defaultConcurrency n s h
  refine ⟨?_, hl⟩
  calc inFlightCalls s ≤ s.running.length • layersPerRequest :=
        List.sum_le_card_nsmul _ _ hm
    _ = s.running.length * layersPerRequest := by rw [smul_eq_mul]
    _ ≤ defaultConcurrency * layersPerRequest := Nat.mul_le_mul_right _ hl

theorem c8_inflight_bound_witness :
    inFlightCalls { waiting := 0, running := [layersPerRequest] } ≤
      defaultConcurrency * layersPerRequest := by
  have h0 : ExecReachable defaultConcurrency 1 { waiting := 1, running := [] } :=
    .init
  have h1 : ExecReachable defaultConcurrency 1
      { waiting := 0, running := [layersPerRequest] } :=
    h0.step (.start _ (by decide) (by decide))
  exact (c8_inflight_bound 1 _ h1).1

/-- C7: in any reachable state of a path run where every layer task has
completed (the state the join returns in), each of the five slots of the
path's `Results` entry holds exactly that layer's own result — transport
failures included, since `storedResult` is total in the outcome — so no
path is left partially populated and one layer's failure never displaces
another layer's slot. -/
theorem c7_complete_result_set (urls : URLsToTest) (o : PathOutcomes)
    (extract : String → Except String String) (rbm0 : ResponseBytesMismatch)
    (s : PathRunState) (h : PathReachable urls o extract rbm0 s)
    (hk : s.kuboPhase = .done) (hl : s.lassiePhase = .done)
    (hsh : s.shimPhase = .done) (hn : s.nginxPhase = .done)
    (hb : s.bifrostPhase = .done) :
    s.store.kuboGWResult = some (storedResult urls.kuboGWUrl o.kubo) ∧
    s.store.lassieResult = some (storedResult urls.lassie o.lassie) ∧
    s.store.l1ShimResult = some (storedResult urls.l1Shim o.l1shim) ∧
    s.store.l1NginxResult = some (storedResult urls.l1Nginx o.l1nginx) ∧
    s.store.bifrostResult = some (storedResult urls.bifrostURL o.bifrost) := by
  obtain ⟨i1, i2, i3, i4, i5, _⟩ := pathInv_holds urls o extract rbm0 s h
  exact ⟨i1 (by simp [hk]), i2 (by simp [hl]), i3 (by simp [hsh]),
         i4 (by simp [hn]), i5 (by simp [hb])⟩

/-- C9: any consistency outcome recorded in a reachable state of a path
run is the evaluation of the fully populated result set — every slot
holding its layer's stored result — because the eval step is enabled only
after the join has observed all five layer tasks done, and it runs under
the same mutual-exclusion domain (`re.mu`, an atomic step here) that
guards slot writes.  No evaluation of a partially populated set can ever
be recorded. -/
theorem c9_eval_only_after_join (urls : URLsToTest) (o : PathOutcomes)
    (extract : String → Except String String) (rbm0 : ResponseBytesMismatch)
    (s : PathRunState) (h : PathReachable urls o extract rbm0 s)
    (x : ResponseBytesMismatch) (hx : s.evald = some x) :
    x = evalConsistency urls.path extract (gatherResultSet urls o)
      (localBytes urls.kuboGWUrl o.kubo)
      (localBytes urls.lassie o.lassie)
      (localBytes urls.l1Shim o.l1shim)
      (localBytes urls.l1Nginx o.l1nginx)
      (localBytes urls.bifrostURL o.bifrost)
      rbm0 :=
  (pathInv_holds urls o extract rbm0 s h).2.2.2.2.2 x hx

/-- Concrete per-layer URLs used to exercise the path-run model. -/
def wUrls : URLsToTest :=
  { path := "/ipfs/bafyx/a", lassie := "lu", l1Shim := "su", l1Nginx := "nu",
    kuboGWUrl := "ku", bifrostURL := "bu" }

/-- Concrete call outcomes: one transport failure among four responses. -/
def wOuts : PathOutcomes :=
  { kubo := .transportError "connection refused"
    lassie := .response 200 [] (.ok "abc")
    l1shim := .response 200 [] (.ok "abc")
    l1nginx := .response 502 [] (.ok "bad gateway")
    bifrost := .response 200 [] (.ok "abc") }

/-- Concrete extraction function: the identity on CAR bytes. -/
def wExtract : String → Except String String := fun s => .ok s

/-- The path-run state after all ten write/done steps, before evaluation. -/
def wFinal : PathRunState :=
  { store :=
      { kuboGWResult := some (storedResult wUrls.kuboGWUrl wOuts.kubo)
        lassieResult := some (storedResult wUrls.lassie wOuts.lassie)
        l1ShimResult := some (storedResult wUrls.l1Shim wOuts.l1shim)
        l1NginxResult := some (storedResult wUrls.l1Nginx wOuts.l1nginx)
        bifrostResult := some (storedResult wUrls.bifrostURL wOuts.bifrost) }
    kuboPhase := .done
    lassiePhase := .done
    shimPhase := .done
    nginxPhase := .done
    bifrostPhase := .done
    evald := none }

theorem c7_complete_result_set_witness :
    wFinal.store.kuboGWResult = some (storedResult wUrls.kuboGWUrl wOuts.kubo) ∧
    wFinal.store.lassieResult = some (storedResult wUrls.lassie wOuts.lassie) ∧
    wFinal.store.l1ShimResult = some (storedResult wUrls.l1Shim wOuts.l1shim) ∧
    wFinal.store.l1NginxResult = some (storedResult wUrls.l1Nginx wOuts.l1nginx) ∧
    wFinal.store.bifrostResult = some (storedResult wUrls.bifrostURL wOuts.bifrost) := by
  have h0 : PathReachable wUrls wOuts wExtract {} pathInit := .init
  have h1 := h0.step (.writeKubo _ rfl)
  have h2 := h1.step (.doneKubo _ rfl)
  have h3 := h2.step (.writeLassie _ rfl)
  have h4 := h3.step (.doneLassie _ rfl)
  have h5 := h4.step (.writeShim _ rfl)
  have h6 := h5.step (.doneShim _ rfl)
  have h7 := h6.step (.writeNginx _ rfl)
  have h8 := h7.step (.doneNginx _ rfl)
  have h9 := h8.step (.writeBifrost _ rfl)
  have h10 : PathReachable wUrls wOuts wExtract {} wFinal :=
    h9.step (.doneBifrost _ rfl)
  exact c7_complete_result_set wUrls wOuts wExtract {} wFinal h10 rfl rfl rfl rfl rfl

/-- The consistency outcome the eval step records on the concrete run. -/
def wEvalRbm : ResponseBytesMismatch :=
  evalConsistency wUrls.path wExtract (gatherResultSet wUrls wOuts)
    (localBytes wUrls.kuboGWUrl wOuts.kubo)
    (localBytes wUrls.lassie wOuts.lassie)
    (localBytes wUrls.l1Shim wOuts.l1shim)
    (localBytes wUrls.l1Nginx wOuts.l1nginx)
    (localBytes wUrls.bifrostURL wOuts.bifrost)
    {}

/-- The path-run state after the evaluation step. -/
def wFinalEval : PathRunState := { wFinal with evald := some wEvalRbm }

theorem c9_eval_only_after_join_witness :
    wEvalRbm = evalConsistency wUrls.path wExtract (gatherResultSet wUrls wOuts)
      (localBytes wUrls.kuboGWUrl wOuts.kubo)
      (localBytes wUrls.lassie wOuts.lassie)
      (localBytes wUrls.l1Shim wOuts.l1shim)
      (localBytes wUrls.l1Nginx wOuts.l1nginx)
      (localBytes wUrls.bifrostURL wOuts.bifrost)
      {} := by
  have h0 : PathReachable wUrls wOuts wExtract {} pathInit := .init
  have h1 := h0.step (.writeKubo _ rfl)
  have h2 := h1.step (.doneKubo _ rfl)
  have h3 := h2.step (.writeLassie _ rfl)
  have h4 := h3.step (.doneLassie _ rfl)
  have h5 := h4.step (.writeShim _ rfl)
  have h6 := h5.step (.doneShim _ rfl)
  have h7 := h6.step (.writeNginx _ rfl)
  have h8 := h7.step (.doneNginx _ rfl)
  have h9 := h8.step (.writeBifrost _ rfl)
  have h10 : PathReachable wUrls wOuts wExtract {} wFinal :=
    h9.step (.doneBifrost _ rfl)
  have h11 : PathReachable wUrls wOuts wExtract {} wFinalEval :=
    h10.step (.eval _ _ _ _ _ _ rfl rfl rfl rfl rfl rfl rfl rfl rfl rfl rfl)
  exact c9_eval_only_after_join wUrls wOuts wExtract {} wFinalEval h11 wEvalRbm rfl

/-- Specification-side success notion for one layer result: a 2xx status
together with an error-free body read. -/
def ok2xx (r : Result) : Prop := is2xx r.statusCode ∧ r.responseBodyReadError = ""

instance (r : Result) : Decidable (ok2xx r) := by
  unfold ok2xx; infer_instance

theorem ok2xx_of_gate {r : Result} (h200 : r.statusCode = 200)
    (herr : r.responseBodyReadError = "") : ok2xx r :=
  ⟨by rw [h200]; decide, herr⟩

/-- C2: a content-axis comparison for a pair — any change to that pair's
mismatch map, mismatch path list or match counter — happens only when both
sides returned 2xx (the code's actual gate, exactly 200, is contained in
2xx) with an error-free body read: whenever either side fails the 2xx or
error-free-read condition, the evaluation leaves every content observable
of that pair exactly as it was. -/
theorem c2_content_only_when_both_ok (p : String)
    (ex : String → Except String String) (rs : ResultSet)
    (k l s1 n1 b1 : String) (rbm : ResponseBytesMismatch) :
    (¬(ok2xx rs.kuboGWResult ∧ ok2xx rs.lassieResult) →
      (evalConsistency p ex rs k l s1 n1 b1 rbm).kuboLassieMismatches =
        rbm.kuboLassieMismatches ∧
      (evalConsistency p ex rs k l s1 n1 b1 rbm).kuboLassieMismatchPaths =
        rbm.kuboLassieMismatchPaths ∧
      (evalConsistency p ex rs k l s1 n1 b1 rbm).totalKuboLassieMatches =
        rbm.totalKuboLassieMatches) ∧
    (¬(ok2xx rs.kuboGWResult ∧ ok2xx rs.l1ShimResult) →
      (evalConsistency p ex rs k l s1 n1 b1 rbm).kuboL1ShimMismatches =
        rbm.kuboL1ShimMismatches ∧
      (evalConsistency p ex rs k l s1 n1 b1 rbm).kuboL1ShimMismatchPaths =
        rbm.kuboL1ShimMismatchPaths ∧
      (evalConsistency p ex rs k l s1 n1 b1 rbm).totalKuboL1ShimMatches =
        rbm.totalKuboL1ShimMatches) ∧
    (¬(ok2xx rs.kuboGWResult ∧ ok2xx rs.l1NginxResult) →
      (evalConsistency p ex rs k l s1 n1 b1 rbm).kuboL1NginxMismatches =
        rbm.kuboL1NginxMismatches ∧
      (evalConsistency p ex rs k l s1 n1 b1 rbm).kuboL1NginxMismatchPaths =
        rbm.kuboL1NginxMismatchPaths ∧
      (evalConsistency p ex rs k l s1 n1 b1 rbm).totalKuboL1NginxMatches =
        rbm.totalKuboL1NginxMatches) ∧
    (¬(ok2xx rs.kuboGWResult ∧ ok2xx rs.bifrostResult) →
      (evalConsistency p ex rs k l s1 n1 b1 rbm).kuboBifrostMismatches =
        rbm.kuboBifrostMismatches ∧
      (evalConsistency p ex rs k l s1 n1 b1 rbm).kuboBifrostMismatchPaths =
        rbm.kuboBifrostMismatchPaths ∧
      (evalConsistency p ex rs k l s1 n1 b1 rbm).totalKuboBifrostMatches =
        rbm.totalKuboBifrostMatches) ∧
    (¬(ok2xx rs.lassieResult ∧ ok2xx rs.l1ShimResult) →
      (evalConsistency p ex rs k l s1 n1 b1 rbm).lassieShimMismatches =
        rbm.lassieShimMismatches ∧
      (evalConsistency p ex rs k l s1 n1 b1 rbm).lassieShimMismatchPaths =
        rbm.lassieShimMismatchPaths) ∧
    (¬(ok2xx rs.l1ShimResult ∧ ok2xx rs.l1NginxResult) →
      (evalConsistency p ex rs k l s1 n1 b1 rbm).shimNginxMismatches =
        rbm.shimNginxMismatches ∧
      (evalConsistency p ex rs k l s1 n1 b1 rbm).shimNginxMismatchPaths =
        rbm.shimNginxMismatchPaths) := by
  refine ⟨fun h => ?_, fun h => ?_, fun h => ?_, fun h => ?_, fun h => ?_,
          fun h => ?_⟩
  · have hg : ¬(rs.kuboGWResult.statusCode = 200 ∧
        rs.lassieResult.statusCode = 200 ∧
        rs.kuboGWResult.responseBodyReadError = "" ∧
        rs.lassieResult.responseBodyReadError = "") :=
      fun hc => h ⟨ok2xx_of_gate hc.1 hc.2.2.1, ok2xx_of_gate hc.2.1 hc.2.2.2⟩
    refine ⟨?_, ?_, ?_⟩ <;>
      (simp only [evalConsistency]
       rw [kuboLassiePair_skip _ _ _ _ _ _ hg]
       simp)
  · have hg : ¬(rs.kuboGWResult.statusCode = 200 ∧
        rs.l1ShimResult.statusCode = 200 ∧
        rs.kuboGWResult.responseBodyReadError = "" ∧
        rs.l1ShimResult.responseBodyReadError = "") :=
      fun hc => h ⟨ok2xx_of_gate hc.1 hc.2.2.1, ok2xx_of_gate hc.2.1 hc.2.2.2⟩
    refine ⟨?_, ?_, ?_⟩ <;>
      (simp only [evalConsistency]
       rw [kuboL1ShimPair_skip _ _ _ _ _ _ hg]
       simp)
  · have hg : ¬(rs.kuboGWResult.statusCode = 200 ∧
        rs.l1NginxResult.statusCode = 200 ∧
        rs.kuboGWResult.responseBodyReadError = "" ∧
        rs.l1NginxResult.responseBodyReadError = "") :=
      fun hc => h ⟨ok2xx_of_gate hc.1 hc.2.2.1, ok2xx_of_gate hc.2.1 hc.2.2.2⟩
    refine ⟨?_, ?_, ?_⟩ <;>
      (simp only [evalConsistency]
       rw [kuboL1NginxPair_skip _ _ _ _ _ _ hg]
       simp)
  · have hg : ¬(rs.kuboGWResult.statusCode = 200 ∧
        rs.bifrostResult.statusCode = 200 ∧
        rs.kuboGWResult.responseBodyReadError = "" ∧
        rs.bifrostResult.responseBodyReadError = "") :=
      fun hc => h ⟨ok2xx_of_gate hc.1 hc.2.2.1, ok2xx_of_gate hc.2.1 hc.2.2.2⟩
    refine ⟨?_, ?_, ?_⟩ <;>
      (simp only [evalConsistency]
       rw [kuboBifrostPair_skip _ _ _ _ _ hg]
       simp)
  · have hg : ¬(rs.lassieResult.statusCode = 200 ∧
        rs.l1ShimResult.statusCode = 200 ∧
        rs.lassieResult.responseBodyReadError = "" ∧
        rs.l1ShimResult.responseBodyReadError = "") :=
      fun hc => h ⟨ok2xx_of_gate hc.1 hc.2.2.1, ok2xx_of_gate hc.2.1 hc.2.2.2⟩
    refine ⟨?_, ?_⟩ <;>
      (simp only [evalConsistency]
       rw [lassieShimPair_skip _ _ _ _ _ hg]
       simp)
  · have hg : ¬(rs.l1ShimResult.statusCode = 200 ∧
        rs.l1NginxResult.statusCode = 200 ∧
        rs.l1ShimResult.responseBodyReadError = "" ∧
        rs.l1NginxResult.responseBodyReadError = "") :=
      fun hc => h ⟨ok2xx_of_gate hc.1 hc.2.2.1, ok2xx_of_gate hc.2.1 hc.2.2.2⟩
    refine ⟨?_, ?_⟩ <;>
      (simp only [evalConsistency]
       rw [shimNginxPair_skip _ _ _ _ _ hg]
       simp)

theorem c2_content_only_when_both_ok_witness :
    (evalConsistency "p" (fun s => .ok s)
      { kuboGWResult := { statusCode := 502 },
        lassieResult := { statusCode := 502 },
        l1ShimResult := { statusCode := 502 },
        l1NginxResult := { statusCode := 502 },
        bifrostResult := { statusCode := 502 } }
      "x" "y" "z" "w" "v" {}).kuboLassieMismatches = [] ∧
    (evalConsistency "p" (fun s => .ok s)
      { kuboGWResult := { statusCode := 502 },
        lassieResult := { statusCode := 502 },
        l1ShimResult := { statusCode := 502 },
        l1NginxResult := { statusCode := 502 },
        bifrostResult := { statusCode := 502 } }
      "x" "y" "z" "w" "v" {}).shimNginxMismatches = [] :=
  ⟨((c2_content_only_when_both_ok "p" (fun s => .ok s)
      { kuboGWResult := { statusCode := 502 },
        lassieResult := { statusCode := 502 },
        l1ShimResult := { statusCode := 502 },
        l1NginxResult := { statusCode := 502 },
        bifrostResult := { statusCode := 502 } }
      "x" "y" "z" "w" "v" {}).1 (by decide)).1,
   ((c2_content_only_when_both_ok "p" (fun s => .ok s)
      { kuboGWResult := { statusCode := 502 },
        lassieResult := { statusCode := 502 },
        l1ShimResult := { statusCode := 502 },
        l1NginxResult := { statusCode := 502 },
        bifrostResult := { statusCode := 502 } }
      "x" "y" "z" "w" "v" {}).2.2.2.2.2 (by decide)).1⟩

/-- C1 fails as stated: with the Kubo side at 200 and the Lassie side at
204 — both 2xx, both with error-free reads, the normalizer succeeding and
the normalized bytes equal — the claim requires the pair's match counter
to increment, but the engine compares only when both sides are exactly
200, so neither the counter moves nor a discrepancy is recorded. -/
theorem c1_counterexample_status204 :
    is2xx 200 ∧ is2xx 204 ∧
    (fun s => (Except.ok s : Except String String)) "abc" = .ok "abc" ∧
    (evalConsistency "p" (fun s => .ok s)
      { kuboGWResult := { statusCode := 200 },
        lassieResult := { statusCode := 204 },
        l1ShimResult := {}, l1NginxResult := {}, bifrostResult := {} }
      "abc" "abc" "" "" "" {}).totalKuboLassieMatches = 0 ∧
    (evalConsistency "p" (fun s => .ok s)
      { kuboGWResult := { statusCode := 200 },
        lassieResult := { statusCode := 204 },
        l1ShimResult := {}, l1NginxResult := {}, bifrostResult := {} }
      "abc" "abc" "" "" "" {}).kuboLassieMismatches = [] := by
  decide

/-- C1 amended (per pair): whenever the two sides of one compared pair
both returned exactly 200 with error-free body reads and the normalizer
succeeded on the side that needs extraction, a content-mismatch
discrepancy (holding both layer results) is recorded for the path exactly
when the normalized bytes differ; when they are equal, the four
Kubo-referenced pairs increment their match counter instead, while the
Lassie/Shim and Shim/Nginx pairs record nothing on equality (they have no
match counter); the Kubo/L1-Shim pair additionally requires the extracted
bytes to be non-empty.  Each conjunct assumes only its own pair's
conditions, so it applies regardless of what the other layers returned. -/
theorem c1_amended_content_axis (p : String) (ex : String → Except String String)
    (rs : ResultSet) (k l s1 n1 b1 : String) (rbm : ResponseBytesMismatch) :
    (∀ rawL, rs.kuboGWResult.statusCode = 200 →
      rs.lassieResult.statusCode = 200 →
      rs.kuboGWResult.responseBodyReadError = "" →
      rs.lassieResult.responseBodyReadError = "" →
      ex l = .ok rawL →
      (k ≠ rawL →
        (evalConsistency p ex rs k l s1 n1 b1 rbm).kuboLassieMismatches =
          (p, { kuboGWResult := some rs.kuboGWResult,
                lassieResult := some rs.lassieResult : Results })
            :: rbm.kuboLassieMismatches ∧
        (evalConsistency p ex rs k l s1 n1 b1 rbm).totalKuboLassieMatches =
          rbm.totalKuboLassieMatches) ∧
      (k = rawL →
        (evalConsistency p ex rs k l s1 n1 b1 rbm).kuboLassieMismatches =
          rbm.kuboLassieMismatches ∧
        (evalConsistency p ex rs k l s1 n1 b1 rbm).totalKuboLassieMatches =
          rbm.totalKuboLassieMatches + 1)) ∧
    (∀ rawS, rs.kuboGWResult.statusCode = 200 →
      rs.l1ShimResult.statusCode = 200 →
      rs.kuboGWResult.responseBodyReadError = "" →
      rs.l1ShimResult.responseBodyReadError = "" →
      ex s1 = .ok rawS → rawS.length > 0 →
      (k ≠ rawS →
        (evalConsistency p ex rs k l s1 n1 b1 rbm).kuboL1ShimMismatches =
          (p, { kuboGWResult := some rs.kuboGWResult,
                l1ShimResult := some rs.l1ShimResult : Results })
            :: rbm.kuboL1ShimMismatches ∧
        (evalConsistency p ex rs k l s1 n1 b1 rbm).totalKuboL1ShimMatches =
          rbm.totalKuboL1ShimMatches) ∧
      (k = rawS →
        (evalConsistency p ex rs k l s1 n1 b1 rbm).kuboL1ShimMismatches =
          rbm.kuboL1ShimMismatches ∧
        (evalConsistency p ex rs k l s1 n1 b1 rbm).totalKuboL1ShimMatches =
          rbm.totalKuboL1ShimMatches + 1)) ∧
    (∀ rawN, rs.kuboGWResult.statusCode = 200 →
      rs.l1NginxResult.statusCode = 200 →
      rs.kuboGWResult.responseBodyReadError = "" →
      rs.l1NginxResult.responseBodyReadError = "" →
      ex n1 = .ok rawN →
      (k ≠ rawN →
        (evalConsistency p ex rs k l s1 n1 b1 rbm).kuboL1NginxMismatches =
          (p, { kuboGWResult := some rs.kuboGWResult,
                l1NginxResult := some rs.l1NginxResult : Results })
            :: rbm.kuboL1NginxMismatches ∧
        (evalConsistency p ex rs k l s1 n1 b1 rbm).totalKuboL1NginxMatches =
          rbm.totalKuboL1NginxMatches) ∧
      (k = rawN →
        (evalConsistency p ex rs k l s1 n1 b1 rbm).kuboL1NginxMismatches =
          rbm.kuboL1NginxMismatches ∧
        (evalConsistency p ex rs k l s1 n1 b1 rbm).totalKuboL1NginxMatches =
          rbm.totalKuboL1NginxMatches + 1)) ∧
    (rs.kuboGWResult.statusCode = 200 →
      rs.bifrostResult.statusCode = 200 →
      rs.kuboGWResult.responseBodyReadError = "" →
      rs.bifrostResult.responseBodyReadError = "" →
      (k ≠ b1 →
        (evalConsistency p ex rs k l s1 n1 b1 rbm).kuboBifrostMismatches =
          (p, { kuboGWResult := some rs.kuboGWResult,
                bifrostResult := some rs.bifrostResult : Results })
            :: rbm.kuboBifrostMismatches ∧
        (evalConsistency p ex rs k l s1 n1 b1 rbm).totalKuboBifrostMatches =
          rbm.totalKuboBifrostMatches) ∧
      (k = b1 →
        (evalConsistency p ex rs k l s1 n1 b1 rbm).kuboBifrostMismatches =
          rbm.kuboBifrostMismatches ∧
        (evalConsistency p ex rs k l s1 n1 b1 rbm).totalKuboBifrostMatches =
          rbm.totalKuboBifrostMatches + 1)) ∧
    (rs.lassieResult.statusCode = 200 →
      rs.l1ShimResult.statusCode = 200 →
      rs.lassieResult.responseBodyReadError = "" →
      rs.l1ShimResult.responseBodyReadError = "" →
      (l ≠ s1 →
        (evalConsistency p ex rs k l s1 n1 b1 rbm).lassieShimMismatches =
          (p, { lassieResult := some rs.lassieResult,
                l1ShimResult := some rs.l1ShimResult : Results })
            :: rbm.lassieShimMismatches) ∧
      (l = s1 →
        (evalConsistency p ex rs k l s1 n1 b1 rbm).lassieShimMismatches =
          rbm.lassieShimMismatches)) ∧
    (rs.l1ShimResult.statusCode = 200 →
      rs.l1NginxResult.statusCode = 200 →
      rs.l1ShimResult.responseBodyReadError = "" →
      rs.l1NginxResult.responseBodyReadError = "" →
      (s1 ≠ n1 →
        (evalConsistency p ex rs k l s1 n1 b1 rbm).shimNginxMismatches =
          (p, { l1ShimResult := some rs.l1ShimResult,
                l1NginxResult := some rs.l1NginxResult : Results })
            :: rbm.shimNginxMismatches) ∧
      (s1 = n1 →
        (evalConsistency p ex rs k l s1 n1 b1 rbm).shimNginxMismatches =
          rbm.shimNginxMismatches)) := by
  refine ⟨fun rawL hk hl hke hle hex => ⟨fun hd => ?_, fun hq => ?_⟩,
          fun rawS hk hs hke hse hex hlen => ⟨fun hd => ?_, fun hq => ?_⟩,
          fun rawN hk hn hke hne2 hex => ⟨fun hd => ?_, fun hq => ?_⟩,
          fun hk hb hke hbe => ⟨fun hd => ?_, fun hq => ?_⟩,
          fun hl hs hle hse => ⟨fun hd => ?_, fun hq => ?_⟩,
          fun hs hn hse hne2 => ⟨fun hd => ?_, fun hq => ?_⟩⟩
  · refine ⟨?_, ?_⟩ <;>
      (simp only [evalConsistency]
       rw [kuboLassiePair_mism _ _ _ _ _ _ ⟨hk, hl, hke, hle⟩ rawL hex hd]
       simp)
  · refine ⟨?_, ?_⟩ <;>
      (simp only [evalConsistency]
       rw [kuboLassiePair_match _ _ _ _ _ _ ⟨hk, hl, hke, hle⟩ rawL hex hq]
       simp)
  · refine ⟨?_, ?_⟩ <;>
      (simp only [evalConsistency]
       rw [kuboL1ShimPair_mism _ _ _ _ _ _ ⟨hk, hs, hke, hse⟩ rawS hex hlen hd]
       simp)
  · refine ⟨?_, ?_⟩ <;>
      (simp only [evalConsistency]
       rw [kuboL1ShimPair_match _ _ _ _ _ _ ⟨hk, hs, hke, hse⟩ rawS hex hlen hq]
       simp)
  · refine ⟨?_, ?_⟩ <;>
      (simp only [evalConsistency]
       rw [kuboL1NginxPair_mism _ _ _ _ _ _ ⟨hk, hn, hke, hne2⟩ rawN hex hd]
       simp)
  · refine ⟨?_, ?_⟩ <;>
      (simp only [evalConsistency]
       rw [kuboL1NginxPair_match _ _ _ _ _ _ ⟨hk, hn, hke, hne2⟩ rawN hex hq]
       simp)
  · refine ⟨?_, ?_⟩ <;>
      (simp only [evalConsistency]
       rw [kuboBifrostPair_mism _ _ _ _ _ ⟨hk, hb, hke, hbe⟩ hd]
       simp)
  · refine ⟨?_, ?_⟩ <;>
      (simp only [evalConsistency]
       rw [kuboBifrostPair_match _ _ _ _ _ ⟨hk, hb, hke, hbe⟩ hq]
       simp)
  · simp only [evalConsistency]
    rw [lassieShimPair_mism _ _ _ _ _ ⟨hl, hs, hle, hse⟩ hd]
    simp
  · simp only [evalConsistency]
    rw [lassieShimPair_eq _ _ _ _ _ hq]
    simp
  · simp only [evalConsistency]
    rw [shimNginxPair_mism _ _ _ _ _ ⟨hs, hn, hse, hne2⟩ hd]
    simp
  · simp only [evalConsistency]
    rw [shimNginxPair_eq _ _ _ _ _ hq]
    simp

theorem c1_amended_content_axis_witness :
    (evalConsistency "p" (fun s => .ok s)
      { kuboGWResult := { statusCode := 200 },
        lassieResult := { statusCode := 200 },
        l1ShimResult := { statusCode := 200 },
        l1NginxResult := { statusCode := 200 },
        bifrostResult := { statusCode := 502 } }
      "abc" "abc" "abc" "abd" "abc" {}).totalKuboLassieMatches = 0 + 1 ∧
    (evalConsistency "p" (fun s => .ok s)
      { kuboGWResult := { statusCode := 200 },
        lassieResult := { statusCode := 200 },
        l1ShimResult := { statusCode := 200 },
        l1NginxResult := { statusCode := 200 },
        bifrostResult := { statusCode := 502 } }
      "abc" "abc" "abc" "abd" "abc" {}).kuboL1NginxMismatches =
      [("p", { kuboGWResult := some ({ statusCode := 200 } : Result),
               l1NginxResult := some ({ statusCode := 200 } : Result) })] := by
  have h := c1_amended_content_axis "p" (fun s => .ok s)
    { kuboGWResult := { statusCode := 200 },
      lassieResult := { statusCode := 200 },
      l1ShimResult := { statusCode := 200 },
      l1NginxResult := { statusCode := 200 },
      bifrostResult := { statusCode := 502 } }
    "abc" "abc" "abc" "abd" "abc" {}
  exact ⟨((h.1 "abc" rfl rfl rfl rfl rfl).2 rfl).2,
         ((h.2.2.1 "abd" rfl rfl rfl rfl rfl).1 (by decide)).1⟩

/-- C3 fails as stated: on a normalizer failure (here the extractor
returns an error for the Lassie body while both sides are 200 with clean
reads) the engine records no decode-error outcome anywhere — the entire
mismatch state is unchanged except the Lassie read-success counter, as the
full-state equality shows.  The half of the claim that the pair is never
counted as a match or mismatch does hold. -/
theorem c3_counterexample_no_decode_bucket :
    (fun _ => (Except.error "decode failure" : Except String String)) "xyz" =
      .error "decode failure" ∧
    evalConsistency "p" (fun _ => .error "decode failure")
      { kuboGWResult := { statusCode := 200 },
        lassieResult := { statusCode := 200 },
        l1ShimResult := {}, l1NginxResult := {}, bifrostResult := {} }
      "abc" "xyz" "" "" "" {} =
      { totalLassieReadSuccess := 1 } := by
  decide

/-- C3 amended (per side): whenever the normalizer fails on one side's
body, the engine skips that side's pair for the path entirely — no content
mismatch, no mismatch path, no match-counter change, and no decode-error
record of any kind, since the state has no decode-error bucket.  Each
conjunct assumes only its own side's extraction failure, so it applies
regardless of how extraction fares on the other sides. -/
theorem c3_amended_decode_error_skips_pair (p : String)
    (ex : String → Except String String) (rs : ResultSet)
    (k l s1 n1 b1 : String) (rbm : ResponseBytesMismatch) :
    (∀ e, ex l = .error e →
      (evalConsistency p ex rs k l s1 n1 b1 rbm).kuboLassieMismatches =
        rbm.kuboLassieMismatches ∧
      (evalConsistency p ex rs k l s1 n1 b1 rbm).kuboLassieMismatchPaths =
        rbm.kuboLassieMismatchPaths ∧
      (evalConsistency p ex rs k l s1 n1 b1 rbm).totalKuboLassieMatches =
        rbm.totalKuboLassieMatches) ∧
    (∀ e, ex s1 = .error e →
      (evalConsistency p ex rs k l s1 n1 b1 rbm).kuboL1ShimMismatches =
        rbm.kuboL1ShimMismatches ∧
      (evalConsistency p ex rs k l s1 n1 b1 rbm).kuboL1ShimMismatchPaths =
        rbm.kuboL1ShimMismatchPaths ∧
      (evalConsistency p ex rs k l s1 n1 b1 rbm).totalKuboL1ShimMatches =
        rbm.totalKuboL1ShimMatches) ∧
    (∀ e, ex n1 = .error e →
      (evalConsistency p ex rs k l s1 n1 b1 rbm).kuboL1NginxMismatches =
        rbm.kuboL1NginxMismatches ∧
      (evalConsistency p ex rs k l s1 n1 b1 rbm).kuboL1NginxMismatchPaths =
        rbm.kuboL1NginxMismatchPaths ∧
      (evalConsistency p ex rs k l s1 n1 b1 rbm).totalKuboL1NginxMatches =
        rbm.totalKuboL1NginxMatches) := by
  refine ⟨fun e hex => ?_, fun e hex => ?_, fun e hex => ?_⟩
  · refine ⟨?_, ?_, ?_⟩ <;>
      (simp only [evalConsistency]
       rw [kuboLassiePair_err _ _ _ _ _ _ e hex]
       simp)
  · refine ⟨?_, ?_, ?_⟩ <;>
      (simp only [evalConsistency]
       rw [kuboL1ShimPair_err _ _ _ _ _ _ e hex]
       simp)
  · refine ⟨?_, ?_, ?_⟩ <;>
      (simp only [evalConsistency]
       rw [kuboL1NginxPair_err _ _ _ _ _ _ e hex]
       simp)

theorem c3_amended_decode_error_skips_pair_witness :
    (evalConsistency "p"
      (fun s => if s = "badcar" then .error "bad car" else .ok s)
      { kuboGWResult := { statusCode := 200 },
        lassieResult := { statusCode := 200 },
        l1ShimResult := { statusCode := 200 },
        l1NginxResult := { statusCode := 200 },
        bifrostResult := { statusCode := 200 } }
      "abc" "badcar" "abc" "abc" "abc" {}).kuboLassieMismatches = [] ∧
    (evalConsistency "p"
      (fun s => if s = "badcar" then .error "bad car" else .ok s)
      { kuboGWResult := { statusCode := 200 },
        lassieResult := { statusCode := 200 },
        l1ShimResult := { statusCode := 200 },
        l1NginxResult := { statusCode := 200 },
        bifrostResult := { statusCode := 200 } }
      "abc" "badcar" "abc" "abc" "abc" {}).totalKuboLassieMatches = 0 := by
  have h := c3_amended_decode_error_skips_pair "p"
    (fun s => if s = "badcar" then .error "bad car" else .ok s)
    { kuboGWResult := { statusCode := 200 },
      lassieResult := { statusCode := 200 },
      l1ShimResult := { statusCode := 200 },
      l1NginxResult := { statusCode := 200 },
      bifrostResult := { statusCode := 200 } }
    "abc" "badcar" "abc" "abc" "abc" {}
  exact ⟨(h.1 "bad car" (by decide)).1, (h.1 "bad car" (by decide)).2.2⟩

/-- C4 fails as stated: the status-axis comparison is directional.  Here
Lassie succeeded with 200 (a 2xx) and an error-free read while Kubo GW
returned 502, so by the claim a status-mismatch discrepancy should be
recorded for the pair regardless of which side succeeded — but the loop
only records a Kubo/Lassie mismatch when the Kubo side is the successful
one, so nothing is recorded. -/
theorem c4_counterexample_directional :
    is2xx 200 ∧ ¬is2xx 502 ∧
    (statusMismatchStep "p"
      { kuboGWResult := { statusCode := 502 },
        lassieResult := { statusCode := 200 },
        l1ShimResult := { statusCode := 200 },
        l1NginxResult := { statusCode := 200 },
        bifrostResult := { statusCode := 200 } }
      {}).kuboLassieMismatch = [] ∧
    (statusMismatchStep "p"
      { kuboGWResult := { statusCode := 502 },
        lassieResult := { statusCode := 200 },
        l1ShimResult := { statusCode := 200 },
        l1NginxResult := { statusCode := 200 },
        bifrostResult := { statusCode := 200 } }
      {}).klMismatchPaths = [] := by
  decide

/-- C4 amended: for each of the five compared pairs, a status-mismatch
discrepancy (holding both layer results) is recorded exactly when the
designated left side of the pair — Kubo GW for Kubo/Lassie and
Kubo/Bifrost, Lassie for Lassie/Shim, L1 Shim for Shim/Nginx, L1 Nginx for
Nginx/Bifrost — returned exactly 200 with an error-free body read while
the right side either did not return 200 or had a body-read error; when
only the right side succeeded, nothing is recorded. -/
theorem c4_amended_status_mismatch_directional (p : String) (r : ResultSet)
    (acc : StatusAcc) :
    ((statusMismatchStep p r acc).kuboLassieMismatch =
      if (r.kuboGWResult.statusCode = 200 ∧
            r.kuboGWResult.responseBodyReadError = "") ∧
          (r.lassieResult.statusCode ≠ 200 ∨
            r.lassieResult.responseBodyReadError ≠ "") then
        (p, { kuboGWResult := some r.kuboGWResult,
              lassieResult := some r.lassieResult : Results })
          :: acc.kuboLassieMismatch
      else acc.kuboLassieMismatch) ∧
    ((statusMismatchStep p r acc).kuboBifrostMismatch =
      if (r.kuboGWResult.statusCode = 200 ∧
            r.kuboGWResult.responseBodyReadError = "") ∧
          (r.bifrostResult.statusCode ≠ 200 ∨
            r.bifrostResult.responseBodyReadError ≠ "") then
        (p, { kuboGWResult := some r.kuboGWResult,
              bifrostResult := some r.bifrostResult : Results })
          :: acc.kuboBifrostMismatch
      else acc.kuboBifrostMismatch) ∧
    ((statusMismatchStep p r acc).lassieShimMismatch =
      if (r.lassieResult.statusCode = 200 ∧
            r.lassieResult.responseBodyReadError = "") ∧
          (r.l1ShimResult.statusCode ≠ 200 ∨
            r.l1ShimResult.responseBodyReadError ≠ "") then
        (p, { lassieResult := some r.lassieResult,
              l1ShimResult := some r.l1ShimResult : Results })
          :: acc.lassieShimMismatch
      else acc.lassieShimMismatch) ∧
    ((statusMismatchStep p r acc).shimNginxMismatch =
      if (r.l1ShimResult.statusCode = 200 ∧
            r.l1ShimResult.responseBodyReadError = "") ∧
          (r.l1NginxResult.statusCode ≠ 200 ∨
            r.l1NginxResult.responseBodyReadError ≠ "") then
        (p, { l1ShimResult := some r.l1ShimResult,
              l1NginxResult := some r.l1NginxResult : Results })
          :: acc.shimNginxMismatch
      else acc.shimNginxMismatch) ∧
    ((statusMismatchStep p r acc).nginxBifrostMismatch =
      if (r.l1NginxResult.statusCode = 200 ∧
            r.l1NginxResult.responseBodyReadError = "") ∧
          (r.bifrostResult.statusCode ≠ 200 ∨
            r.bifrostResult.responseBodyReadError ≠ "") then
        (p, { l1NginxResult := some r.l1NginxResult,
              bifrostResult := some r.bifrostResult : Results })
          :: acc.nginxBifrostMismatch
      else acc.nginxBifrostMismatch) := by
  refine ⟨?_, ?_, ?_, ?_, ?_⟩
  · simp only [statusMismatchStep]
    simp
    rw [kuboStatusBlock_kl]
  · simp only [statusMismatchStep]
    simp
    rw [kuboStatusBlock_kb]
  · simp only [statusMismatchStep]
    simp
    rw [lassieStatusBlock_ls]
    simp
  · simp only [statusMismatchStep]
    simp
    rw [shimStatusBlock_sn]
    simp
  · simp only [statusMismatchStep]
    simp
    rw [nginxStatusBlock_nb]
    simp

/-- C5 fails as stated: a layer that returned 200 but whose body read
failed is excluded from content comparisons, but not from the status
axis — with Lassie at 200 plus a read error and Kubo GW cleanly at 200,
the report loop records a Kubo/Lassie status-mismatch discrepancy that
involves the read-error layer, contradicting that no comparison involving
that layer records a discrepancy for the path. -/
theorem c5_counterexample_status_axis :
    ({ statusCode := 200, responseBodyReadError := "boom" } : Result).statusCode
        = 200 ∧
    ({ statusCode := 200, responseBodyReadError := "boom" } : Result).responseBodyReadError
        ≠ "" ∧
    (statusMismatchStep "p"
      { kuboGWResult := { statusCode := 200 },
        lassieResult := { statusCode := 200, responseBodyReadError := "boom" },
        l1ShimResult := { statusCode := 200 },
        l1NginxResult := { statusCode := 200 },
        bifrostResult := { statusCode := 200 } }
      {}).kuboLassieMismatch =
      [("p", { kuboGWResult := some ({ statusCode := 200 } : Result),
               lassieResult :=
                 some ({ statusCode := 200, responseBodyReadError := "boom" } : Result) })] := by
  decide

/-- C5 amended: a 200 response whose body read failed increments that
layer's read-error counter (for Lassie, L1 Shim, L1 Nginx and Bifrost;
Kubo GW has no read-error counter) and excludes the layer from every
content comparison for the path — no content mismatch, no match count —
while on the status axis the layer is treated as a failed side and can
still appear in status-mismatch discrepancies. -/
theorem c5_amended_read_error_excluded_from_content (p : String)
    (ex : String → Except String String) (rs : ResultSet)
    (k l s1 n1 b1 : String) (rbm : ResponseBytesMismatch) :
    (rs.lassieResult.statusCode = 200 →
      rs.lassieResult.responseBodyReadError ≠ "" →
      (evalConsistency p ex rs k l s1 n1 b1 rbm).totalLassieReadError =
        rbm.totalLassieReadError + 1 ∧
      (evalConsistency p ex rs k l s1 n1 b1 rbm).kuboLassieMismatches =
        rbm.kuboLassieMismatches ∧
      (evalConsistency p ex rs k l s1 n1 b1 rbm).totalKuboLassieMatches =
        rbm.totalKuboLassieMatches ∧
      (evalConsistency p ex rs k l s1 n1 b1 rbm).lassieShimMismatches =
        rbm.lassieShimMismatches) ∧
    (rs.l1ShimResult.statusCode = 200 →
      rs.l1ShimResult.responseBodyReadError ≠ "" →
      (evalConsistency p ex rs k l s1 n1 b1 rbm).totalL1ShimReadError =
        rbm.totalL1ShimReadError + 1 ∧
      (evalConsistency p ex rs k l s1 n1 b1 rbm).kuboL1ShimMismatches =
        rbm.kuboL1ShimMismatches ∧
      (evalConsistency p ex rs k l s1 n1 b1 rbm).totalKuboL1ShimMatches =
        rbm.totalKuboL1ShimMatches ∧
      (evalConsistency p ex rs k l s1 n1 b1 rbm).lassieShimMismatches =
        rbm.lassieShimMismatches ∧
      (evalConsistency p ex rs k l s1 n1 b1 rbm).shimNginxMismatches =
        rbm.shimNginxMismatches) ∧
    (rs.l1NginxResult.statusCode = 200 →
      rs.l1NginxResult.responseBodyReadError ≠ "" →
      (evalConsistency p ex rs k l s1 n1 b1 rbm).totalL1NginxReadError =
        rbm.totalL1NginxReadError + 1 ∧
      (evalConsistency p ex rs k l s1 n1 b1 rbm).kuboL1NginxMismatches =
        rbm.kuboL1NginxMismatches ∧
      (evalConsistency p ex rs k l s1 n1 b1 rbm).totalKuboL1NginxMatches =
        rbm.totalKuboL1NginxMatches ∧
      (evalConsistency p ex rs k l s1 n1 b1 rbm).shimNginxMismatches =
        rbm.shimNginxMismatches) ∧
    (rs.bifrostResult.statusCode = 200 →
      rs.bifrostResult.responseBodyReadError ≠ "" →
      (evalConsistency p ex rs k l s1 n1 b1 rbm).totalBifrostReadError =
        rbm.totalBifrostReadError + 1 ∧
      (evalConsistency p ex rs k l s1 n1 b1 rbm).kuboBifrostMismatches =
        rbm.kuboBifrostMismatches ∧
      (evalConsistency p ex rs k l s1 n1 b1 rbm).totalKuboBifrostMatches =
        rbm.totalKuboBifrostMatches) ∧
    (rs.kuboGWResult.responseBodyReadError ≠ "" →
      (evalConsistency p ex rs k l s1 n1 b1 rbm).kuboLassieMismatches =
        rbm.kuboLassieMismatches ∧
      (evalConsistency p ex rs k l s1 n1 b1 rbm).totalKuboLassieMatches =
        rbm.totalKuboLassieMatches ∧
      (evalConsistency p ex rs k l s1 n1 b1 rbm).kuboL1ShimMismatches =
        rbm.kuboL1ShimMismatches ∧
      (evalConsistency p ex rs k l s1 n1 b1 rbm).totalKuboL1ShimMatches =
        rbm.totalKuboL1ShimMatches ∧
      (evalConsistency p ex rs k l s1 n1 b1 rbm).kuboL1NginxMismatches =
        rbm.kuboL1NginxMismatches ∧
      (evalConsistency p ex rs k l s1 n1 b1 rbm).totalKuboL1NginxMatches =
        rbm.totalKuboL1NginxMatches ∧
      (evalConsistency p ex rs k l s1 n1 b1 rbm).kuboBifrostMismatches =
        rbm.kuboBifrostMismatches ∧
      (evalConsistency p ex rs k l s1 n1 b1 rbm).totalKuboBifrostMatches =
        rbm.totalKuboBifrostMatches) := by
  refine ⟨fun h200 herr => ?_, fun h200 herr => ?_, fun h200 herr => ?_,
          fun h200 herr => ?_, fun herr => ?_⟩
  · refine ⟨?_, ?_, ?_, ?_⟩
    · simp only [evalConsistency]
      simp
      rw [lassieReadStep_errCount _ _ _ h200 herr]
    · simp only [evalConsistency]
      rw [kuboLassiePair_skip _ _ _ _ _ _ (fun hg => herr hg.2.2.2)]
      simp
    · simp only [evalConsistency]
      rw [kuboLassiePair_skip _ _ _ _ _ _ (fun hg => herr hg.2.2.2)]
      simp
    · simp only [evalConsistency]
      rw [lassieShimPair_skip _ _ _ _ _ (fun hg => herr hg.2.2.1)]
      simp
  · refine ⟨?_, ?_, ?_, ?_, ?_⟩
    · simp only [evalConsistency]
      simp
      rw [l1ShimReadStep_errCount _ _ _ h200 herr]
      simp
    · simp only [evalConsistency]
      rw [kuboL1ShimPair_skip _ _ _ _ _ _ (fun hg => herr hg.2.2.2)]
      simp
    · simp only [evalConsistency]
      rw [kuboL1ShimPair_skip _ _ _ _ _ _ (fun hg => herr hg.2.2.2)]
      simp
    · simp only [evalConsistency]
      rw [lassieShimPair_skip _ _ _ _ _ (fun hg => herr hg.2.2.2)]
      simp
    · simp only [evalConsistency]
      rw [shimNginxPair_skip _ _ _ _ _ (fun hg => herr hg.2.2.1)]
      simp
  · refine ⟨?_, ?_, ?_, ?_⟩
    · simp only [evalConsistency]
      simp
      rw [l1NginxReadStep_errCount _ _ _ h200 herr]
      simp
    · simp only [evalConsistency]
      rw [kuboL1NginxPair_skip _ _ _ _ _ _ (fun hg => herr hg.2.2.2)]
      simp
    · simp only [evalConsistency]
      rw [kuboL1NginxPair_skip _ _ _ _ _ _ (fun hg => herr hg.2.2.2)]
      simp
    · simp only [evalConsistency]
      rw [shimNginxPair_skip _ _ _ _ _ (fun hg => herr hg.2.2.2)]
      simp
  · refine ⟨?_, ?_, ?_⟩
    · simp only [evalConsistency]
      simp
      rw [bifrostReadStep_errCount _ _ _ h200 herr]
      simp
    · simp only [evalConsistency]
      rw [kuboBifrostPair_skip _ _ _ _ _ (fun hg => herr hg.2.2.2)]
      simp
    · simp only [evalConsistency]
      rw [kuboBifrostPair_skip _ _ _ _ _ (fun hg => herr hg.2.2.2)]
      simp
  · refine ⟨?_, ?_, ?_, ?_, ?_, ?_, ?_, ?_⟩
    · simp only [evalConsistency]
      rw [kuboLassiePair_skip _ _ _ _ _ _ (fun hg => herr hg.2.2.1)]
      simp
    · simp only [evalConsistency]
      rw [kuboLassiePair_skip _ _ _ _ _ _ (fun hg => herr hg.2.2.1)]
      simp
    · simp only [evalConsistency]
      rw [kuboL1ShimPair_skip _ _ _ _ _ _ (fun hg => herr hg.2.2.1)]
      simp
    · simp only [evalConsistency]
      rw [kuboL1ShimPair_skip _ _ _ _ _ _ (fun hg => herr hg.2.2.1)]
      simp
    · simp only [evalConsistency]
      rw [kuboL1NginxPair_skip _ _ _ _ _ _ (fun hg => herr hg.2.2.1)]
      simp
    · simp only [evalConsistency]
      rw [kuboL1NginxPair_skip _ _ _ _ _ _ (fun hg => herr hg.2.2.1)]
      simp
    · simp only [evalConsistency]
      rw [kuboBifrostPair_skip _ _ _ _ _ (fun hg => herr hg.2.2.1)]
      simp
    · simp only [evalConsistency]
      rw [kuboBifrostPair_skip _ _ _ _ _ (fun hg => herr hg.2.2.1)]
      simp

theorem c5_amended_read_error_excluded_witness :
    (evalConsistency "p" (fun s => .ok s)
      { kuboGWResult := { statusCode := 200, responseBodyReadError := "x" },
        lassieResult := { statusCode := 200, responseBodyReadError := "x" },
        l1ShimResult := { statusCode := 200, responseBodyReadError := "x" },
        l1NginxResult := { statusCode := 200, responseBodyReadError := "x" },
        bifrostResult := { statusCode := 200, responseBodyReadError := "x" } }
      "a" "b" "c" "d" "e" {}).totalLassieReadError = 0 + 1 ∧
    (evalConsistency "p" (fun s => .ok s)
      { kuboGWResult := { statusCode := 200, responseBodyReadError := "x" },
        lassieResult := { statusCode := 200, responseBodyReadError := "x" },
        l1ShimResult := { statusCode := 200, responseBodyReadError := "x" },
        l1NginxResult := { statusCode := 200, responseBodyReadError := "x" },
        bifrostResult := { statusCode := 200, responseBodyReadError := "x" } }
      "a" "b" "c" "d" "e" {}).kuboLassieMismatches = [] ∧
    (evalConsistency "p" (fun s => .ok s)
      { kuboGWResult := { statusCode := 200, responseBodyReadError := "x" },
        lassieResult := { statusCode := 200, responseBodyReadError := "x" },
        l1ShimResult := { statusCode := 200, responseBodyReadError := "x" },
        l1NginxResult := { statusCode := 200, responseBodyReadError := "x" },
        bifrostResult := { statusCode := 200, responseBodyReadError := "x" } }
      "a" "b" "c" "d" "e" {}).totalBifrostReadError = 0 + 1 := by
  have h := c5_amended_read_error_excluded_from_content "p" (fun s => .ok s)
    { kuboGWResult := { statusCode := 200, responseBodyReadError := "x" },
      lassieResult := { statusCode := 200, responseBodyReadError := "x" },
      l1ShimResult := { statusCode := 200, responseBodyReadError := "x" },
      l1NginxResult := { statusCode := 200, responseBodyReadError := "x" },
      bifrostResult := { statusCode := 200, responseBodyReadError := "x" } }
    "a" "b" "c" "d" "e" {}
  exact ⟨(h.1 rfl (by decide)).1, (h.1 rfl (by decide)).2.1,
         (h.2.2.2.1 rfl (by decide)).1⟩

end Onion
